import Mathlib

/-!
Verification of the lead-to-lease chat concierge backend.

The definitions below are a shallow embedding of the Python sources:
`backend/models.py`, `backend/chat_service.py`, `backend/inventory_service.py`
and `backend/session_db_service.py`.  Python `Optional[str]` becomes
`Option String`, Python truthiness of an optional string is the `truthy`
function (a value is truthy iff it is present and non-empty), exceptions
raised by validators become `none`, and the handful of regular expressions
used by the source are embedded as character-level scanners with the same
matching behaviour.  External collaborators (the LLM, SMTP transport, the
random availability draw, tour-slot and confirmation-number generators) are
passed in as explicit parameters.
-/

namespace LeadToLease

/-! ## Basic string helpers (Python semantics) -/

/-- Python whitespace test used by `\s` and `str.strip` / `str.split`. -/
def isPySpace (c : Char) : Bool :=
  c = ' ' || c = '\t' || c = '\n' || c = '\r' || c = '\x0b' || c = '\x0c'

/-- Python decimal-digit test used by `\d` / `str.isdigit` on ASCII input. -/
def isPyDigit (c : Char) : Bool :=
  '0' ≤ c && c ≤ '9'

/-- ASCII letter test used by `[a-zA-Z]`. -/
def isAsciiAlpha (c : Char) : Bool :=
  ('a' ≤ c && c ≤ 'z') || ('A' ≤ c && c ≤ 'Z')

/-- Word character for the regex `\b` boundary: `[a-zA-Z0-9_]`. -/
def isWordChar (c : Char) : Bool :=
  isAsciiAlpha c || isPyDigit c || c = '_'

/-- `str.strip()` on a character list. -/
def stripChars (l : List Char) : List Char :=
  ((l.dropWhile isPySpace).reverse.dropWhile isPySpace).reverse

/-- `str.strip()`. -/
def pyStrip (s : String) : String :=
  ⟨stripChars s.data⟩

/-- `str.lower()` (the source only lowercases ASCII text). -/
def pyLower (s : String) : String :=
  ⟨s.data.map Char.toLower⟩

/-- `str.upper()` (the source only uppercases ASCII text). -/
def pyUpper (s : String) : String :=
  ⟨s.data.map Char.toUpper⟩

/-- Whether `needle` occurs as a contiguous run inside `hay`. -/
def containsSeq (needle hay : List Char) : Bool :=
  match hay with
  | [] => needle.isEmpty
  | _ :: t => needle.isPrefixOf hay || containsSeq needle t

/-- Substring containment, Python `needle in hay`. -/
def pyContains (hay needle : String) : Bool :=
  containsSeq needle.data hay.data

/-- `re.sub(r"\D", "", s)` and `re.sub(r"[^\d]", "", s)`: keep only digits. -/
def digitsOnly (s : String) : String :=
  ⟨s.data.filter isPyDigit⟩

/-- Python truthiness of an `Optional[str]`: `None` and `""` are falsy. -/
def truthy : Option String → Bool
  | none => false
  | some s => !s.isEmpty

/-- Render an `Optional[str]` the way a Python f-string does. -/
def pyShow : Option String → String
  | none => "None"
  | some s => s

/-! ## `models.ChatState` -/

/-- Embeds `models.ChatState`, the conversation-state enum. -/
inductive ChatState where
  | greeting
  | collecting_name
  | collecting_email
  | collecting_phone
  | collecting_move_in
  | collecting_beds
  | ready_to_book
  | booking_confirmed
  deriving DecidableEq, Repr

/-- The `.value` of a `ChatState` member (its string payload). -/
def ChatState.value : ChatState → String
  | .greeting => "greeting"
  | .collecting_name => "collecting_name"
  | .collecting_email => "collecting_email"
  | .collecting_phone => "collecting_phone"
  | .collecting_move_in => "collecting_move_in"
  | .collecting_beds => "collecting_beds"
  | .ready_to_book => "ready_to_book"
  | .booking_confirmed => "booking_confirmed"

/-- The `ChatState(value)` constructor: `none` embeds the `ValueError` raised
on an unknown value. -/
def ChatState.ofValue (s : String) : Option ChatState :=
  if s = "greeting" then some .greeting
  else if s = "collecting_name" then some .collecting_name
  else if s = "collecting_email" then some .collecting_email
  else if s = "collecting_phone" then some .collecting_phone
  else if s = "collecting_move_in" then some .collecting_move_in
  else if s = "collecting_beds" then some .collecting_beds
  else if s = "ready_to_book" then some .ready_to_book
  else if s = "booking_confirmed" then some .booking_confirmed
  else none

/-! ## `models.ProspectData` -/

/-- Embeds `models.ProspectData`.  Optional Python fields are `Option`s;
`selected_units` is the mutable list of unit ids. -/
structure ProspectData where
  name : Option String := none
  email : Option String := none
  phone : Option String := none
  move_in_date : Option String := none
  beds_wanted : Option Nat := none
  unit_id : Option String := none
  selected_units : List String := []
  property_address : Option String := some "123 Main St, Anytown, ST 12345"
  deriving DecidableEq, Repr

/-- Embeds `ChatService._is_data_complete`: Python
`all([name, email, phone, move_in_date, beds_wanted is not None])`. -/
def is_data_complete (d : ProspectData) : Bool :=
  truthy d.name && truthy d.email && truthy d.phone &&
    truthy d.move_in_date && d.beds_wanted.isSome

/-- Embeds `ChatService._get_missing_fields`. -/
def get_missing_fields (d : ProspectData) : List String :=
  (if !truthy d.name then ["name"] else []) ++
  (if !truthy d.email then ["email"] else []) ++
  (if !truthy d.phone then ["phone"] else []) ++
  (if !truthy d.move_in_date then ["move-in date"] else []) ++
  (if d.beds_wanted.isNone then ["number of bedrooms"] else [])

/-! ## `ProspectData.validate_phone` -/

/-- The f-string `f"({d[:3]}) {d[3:6]}-{d[6:]}"` over a 10-digit string. -/
def formatPhone10 (ds : List Char) : String :=
  "(" ++ String.mk (ds.take 3) ++ ") " ++ String.mk ((ds.drop 3).take 3) ++
    "-" ++ String.mk (ds.drop 6)

/-- Embeds the `validate_phone` field validator of `models.ProspectData`:
strip non-digits, accept exactly 10 digits, or 11 digits starting with 1;
`none` embeds the raised `ValueError`. -/
def validate_phone (v : Option String) : Option (Option String) :=
  match v with
  | none => some none
  | some s =>
    let phone_digits := (digitsOnly s).data
    if phone_digits.length = 10 then
      some (some (formatPhone10 phone_digits))
    else if phone_digits.length = 11 && phone_digits.head? = some '1' then
      some (some (formatPhone10 (phone_digits.drop 1)))
    else
      none

/-! ## Regex scanners used by the extraction pipeline

Each definition embeds one of the regular expressions of
`chat_service.py`, with Python `re.search` / `re.match` semantics
(leftmost match; `re.match` anchors at the start only). -/

/-- Characters of the email local part, `[a-zA-Z0-9._%+-]`. -/
def isLocalChar (c : Char) : Bool :=
  isAsciiAlpha c || isPyDigit c || c = '.' || c = '_' || c = '%' || c = '+' || c = '-'

/-- Characters of the email domain part, `[a-zA-Z0-9.-]`. -/
def isDomChar (c : Char) : Bool :=
  isAsciiAlpha c || isPyDigit c || c = '.' || c = '-'

/-- Whether a maximal domain-character run can finish the pattern
`[a-zA-Z0-9.-]+\.[a-zA-Z]{2,}`: it ends in a dot followed by at least two
letters, with at least one character before that dot. -/
def emailTailOk (run : List Char) : Bool :=
  let r := run.reverse
  let tld := r.takeWhile isAsciiAlpha
  let beforeTld := r.drop tld.length
  tld.length ≥ 2 && beforeTld.head? = some '.' && !(beforeTld.drop 1).isEmpty

/-- Embeds `_looks_like_email`:
`re.match(r"^[a-zA-Z0-9._%+-]+@[a-zA-Z0-9.-]+\.[a-zA-Z]{2,}$", text)`. -/
def looks_like_email (text : String) : Bool :=
  let l := text.data
  let lpart := l.takeWhile isLocalChar
  match l.drop lpart.length with
  | '@' :: rest =>
    !lpart.isEmpty && !rest.isEmpty && rest.all isDomChar && emailTailOk rest
  | _ => false

/-- One attempt, at a fixed position, of the combined pattern
`([a-zA-Z0-9._%+-]+@[a-zA-Z0-9.-]+\.[a-zA-Z]{2,})\s+(\d{10})`. -/
def emailPhoneAt (l : List Char) : Option (String × String) :=
  let lpart := l.takeWhile isLocalChar
  if lpart.isEmpty then none else
  match l.drop lpart.length with
  | '@' :: rest =>
    let run := rest.takeWhile isDomChar
    if emailTailOk run then
      let after := rest.drop run.length
      let ws := after.takeWhile isPySpace
      if ws.isEmpty then none else
      let ds := (after.drop ws.length).take 10
      if ds.length = 10 && ds.all isPyDigit then
        some (String.mk (lpart ++ '@' :: run), String.mk ds)
      else none
    else none
  | _ => none

/-- Leftmost `re.search` of the combined email-plus-phone pattern. -/
def searchEmailPhone : List Char → Option (String × String)
  | [] => none
  | c :: t =>
    match emailPhoneAt (c :: t) with
    | some r => some r
    | none => searchEmailPhone t

/-- Embeds `_looks_like_phone`: the digits-only form has exactly 10 digits. -/
def looks_like_phone (text : String) : Bool :=
  (digitsOnly text).data.length = 10

/-- Name characters, `[a-zA-Z\s\-\'\.]`. -/
def isNameChar (c : Char) : Bool :=
  isAsciiAlpha c || isPySpace c || c = '-' || c = '\'' || c = '.'

/-- Number of whitespace-separated words, Python `len(text.split())`. -/
def wordCount (l : List Char) : Nat :=
  (l.foldl
    (fun (st : Nat × Bool) c =>
      if isPySpace c then (st.1, false)
      else if st.2 then st else (st.1 + 1, true))
    (0, false)).1

/-- Embeds `_looks_like_name`: length at least 2, only name characters,
no at-sign, no digit, at most 4 words. -/
def looks_like_name (text : String) : Bool :=
  let l := text.data
  decide (l.length ≥ 2) && (!l.isEmpty && l.all isNameChar) &&
    !l.contains '@' && !l.any isPyDigit && decide (wordCount l ≤ 4)

/-- The date-phrase list of `_looks_like_name_only`. -/
def date_phrases : List String :=
  ["next month", "this month", "last month", "asap", "soon",
   "winter", "spring", "summer", "fall",
   "january", "february", "march", "april", "may", "june", "july",
   "august", "september", "october", "november", "december"]

/-- Embeds `_looks_like_name_only`: rejects known date phrases and any text
containing a date keyword, otherwise defers to `looks_like_name`. -/
def looks_like_name_only (text : String) : Bool :=
  let text_lower := pyStrip (pyLower text)
  if date_phrases.contains text_lower then false
  else
    looks_like_name text &&
      !(["month", "year", "asap", "soon"].any fun k => pyContains text_lower k)

/-- The date-keyword list of `_looks_like_date`. -/
def date_keywords : List String :=
  ["january", "february", "march", "april", "may", "june", "july",
   "august", "september", "october", "november", "december",
   "asap", "soon", "winter", "spring", "summer", "fall", "month"]

/-- Prefix match of `re.match(r"\d{4}-\d{2}-\d{2}", text)`. -/
def startsWithDateShape : List Char → Bool
  | a :: b :: c :: d :: '-' :: e :: f :: '-' :: g :: h :: _ =>
    [a, b, c, d, e, f, g, h].all isPyDigit
  | _ => false

/-- `re.search(r"\d{4}", text)`: four consecutive digits anywhere. -/
def hasFourDigitRun : List Char → Bool
  | [] => false
  | a :: t =>
    (isPyDigit a && (t.take 3).length = 3 && (t.take 3).all isPyDigit) ||
      hasFourDigitRun t

/-- Embeds `_looks_like_date`: a date keyword, a leading `YYYY-MM-DD` shape,
or any four consecutive digits. -/
def looks_like_date (text : String) : Bool :=
  let text_lower := pyLower text
  (date_keywords.any fun k => pyContains text_lower k) ||
    startsWithDateShape text.data || hasFourDigitRun text.data

/-- One attempt of `\b([1-5])\s*(bed|bedroom)` at a fixed position, given the
preceding character (for the word boundary). -/
def bedroomCountAt (prev : Option Char) : List Char → Bool
  | c :: t =>
    ('1' ≤ c && c ≤ '5') &&
      (match prev with | none => true | some p => !isWordChar p) &&
      "bed".data.isPrefixOf (t.dropWhile isPySpace)
  | [] => false

/-- Leftmost search for `\b([1-5])\s*(bed|bedroom)`. -/
def bedroomSearch (prev : Option Char) : List Char → Bool
  | [] => false
  | c :: t => bedroomCountAt prev (c :: t) || bedroomSearch (some c) t

/-- Embeds `_looks_like_bedroom_count`. -/
def looks_like_bedroom_count (text : String) : Bool :=
  bedroomSearch none (pyLower text).data

/-- Leftmost `re.search(r"\b([lo-hi])\b", text)`: a single digit in the given
range with word boundaries on both sides.  Returns the digit's value. -/
def digitRangeSearch (lo hi : Char) (prev : Option Char) : List Char → Option Nat
  | [] => none
  | c :: t =>
    if (lo ≤ c && c ≤ hi) &&
        (match prev with | none => true | some p => !isWordChar p) &&
        (match t.head? with | none => true | some n => !isWordChar n) then
      some (c.toNat - 48)
    else digitRangeSearch lo hi (some c) t

/-! ## `_extract_name_from_text` -/

/-- Case-insensitive match of one literal word followed by `\s+`; returns the
remainder after the whitespace together with the whitespace count. -/
def matchWordWs (w : List Char) (l : List Char) : Option (List Char × Nat) :=
  if (l.take w.length).map Char.toLower = w then
    let rest := l.drop w.length
    let ws := rest.takeWhile isPySpace
    if ws.isEmpty then none else some (rest.drop ws.length, ws.length)
  else none

/-- Match, at a fixed position, one alternative of
`(?:my\s+name\s+is\s+|i\s+am\s+|call\s+me\s+)` (case-insensitive);
returns the remainder and the width of the final whitespace run. -/
def matchNameKw (l : List Char) : Option (List Char × Nat) :=
  (do
    let r1 ← matchWordWs "my".data l
    let r2 ← matchWordWs "name".data r1.1
    matchWordWs "is".data r2.1) <|>
  (do
    let r1 ← matchWordWs "i".data l
    matchWordWs "am".data r1.1) <|>
  (do
    let r1 ← matchWordWs "call".data l
    matchWordWs "me".data r1.1)

/-- Leftmost search of the name-keyword pattern with its greedy capture
`([a-zA-Z\s\-\'\.]+)`.  When the capture after the final whitespace run is
empty, the regex backtracks one whitespace character into the capture, which
only matches when that run has width at least 2. -/
def searchNameKw : List Char → Option (List Char)
  | [] => none
  | c :: t =>
    match matchNameKw (c :: t) with
    | some (rest, wsCount) =>
      let cap := rest.takeWhile isNameChar
      if !cap.isEmpty then some cap
      else if wsCount ≥ 2 then some [' ']
      else searchNameKw t
    | none => searchNameKw t

/-- Embeds `_extract_name_from_text`: try the keyword pattern, then the
plain-name pattern `^([a-zA-Z\s\-\'\.]+)$`, validating each candidate with
`looks_like_name`; `none` embeds Python's `return None`. -/
def extract_name_from_text (text : String) : Option String :=
  let text := pyStrip text
  let l := text.data
  let fromKw :=
    match searchNameKw l with
    | some cap =>
      let potential := pyStrip (String.mk cap)
      if looks_like_name potential then some potential else none
    | none => none
  match fromKw with
  | some nm => some nm
  | none =>
    if !l.isEmpty && l.all isNameChar then
      let potential := pyStrip text
      if looks_like_name potential then some potential else none
    else none

/-! ## `_parse_multiple_fields_from_message` -/

/-- Splitting on `re.split(r"[,;]\s*", message)`, character by character:
a comma or semicolon ends the current segment, and the greedy `\s*` of the
delimiter swallows the whitespace that follows it. -/
def splitDelimsAux (skipWs : Bool) (acc : List Char) : List Char → List (List Char)
  | [] => [acc.reverse]
  | c :: t =>
    if c = ',' || c = ';' then acc.reverse :: splitDelimsAux true [] t
    else if skipWs && isPySpace c then splitDelimsAux true acc t
    else splitDelimsAux false (c :: acc) t

/-- `re.split(r"[,;]\s*", message)`. -/
def splitOnDelims (l : List Char) : List (List Char) :=
  splitDelimsAux false [] l

/-- First pass of `_parse_multiple_fields_from_message`: high-confidence
email / combined email-phone / phone classification of one stripped part. -/
def pass1Step (d : ProspectData) (part0 : String) : ProspectData :=
  let part := pyStrip part0
  if !truthy d.email && looks_like_email part then
    { d with email := some (pyLower part) }
  else
    match (if !truthy d.email || !truthy d.phone
           then searchEmailPhone part.data else none) with
    | some (em, ph) =>
      let d := if !truthy d.email then { d with email := some (pyLower em) } else d
      if !truthy d.phone then { d with phone := some ph } else d
    | none =>
      if !truthy d.phone && looks_like_phone part then
        let cleaned_phone := digitsOnly part
        if cleaned_phone.data.length = 10 then { d with phone := some cleaned_phone }
        else d
      else d

/-- Second pass of `_parse_multiple_fields_from_message`: skip parts already
consumed as email/phone, then try name, date and bedroom count in order. -/
def pass2Step (d : ProspectData) (part0 : String) : ProspectData :=
  let part := pyStrip part0
  if (truthy d.email && pyContains (pyLower part) (d.email.getD "")) ||
      (truthy d.phone && pyContains (digitsOnly part) (d.phone.getD "")) then d
  else
    match (if !truthy d.name then extract_name_from_text part else none) with
    | some extracted_name => { d with name := some extracted_name }
    | none =>
      if !truthy d.move_in_date && looks_like_date part &&
          !looks_like_name_only part then
        { d with move_in_date := some part }
      else if (d.beds_wanted.getD 0 = 0) && looks_like_bedroom_count part then
        match digitRangeSearch '1' '5' none part.data with
        | some b => { d with beds_wanted := some b }
        | none => d
      else d

/-- Embeds `_parse_multiple_fields_from_message`: split the message on
commas/semicolons, and when at least two parts result run the two
classification passes over all parts. -/
def parse_multiple_fields_from_message (d : ProspectData) (message : String)
    : ProspectData :=
  let parts := (splitOnDelims (pyStrip message).data).map fun c => String.mk c
  if parts.length ≥ 2 then
    parts.foldl pass2Step (parts.foldl pass1Step d)
  else d

/-! ## `_parse_ai_extracted_data` -/

/-- Python `str.split(sep)` for a one-character separator, keeping empties. -/
def splitOnCharAux (sep : Char) (acc : List Char) : List Char → List (List Char)
  | [] => [acc.reverse]
  | c :: t =>
    if c = sep then acc.reverse :: splitOnCharAux sep [] t
    else splitOnCharAux sep (c :: acc) t

/-- Python `str.split(sep)`. -/
def splitOnChar (sep : Char) (l : List Char) : List (List Char) :=
  splitOnCharAux sep [] l

/-- Python `line.split(":", 1)`: the text before the first colon and the text
after it; `none` when the line has no colon. -/
def splitFirstColon (l : List Char) : Option (List Char × List Char) :=
  let seg := l.takeWhile fun c => c ≠ ':'
  match l.drop seg.length with
  | [] => none
  | _ :: t => some (seg, t)

/-- Python `str.replace(pat, rep)`: replace every occurrence, left to right. -/
def pyReplaceChars (pat rep : List Char) : List Char → List Char
  | [] => []
  | c :: t =>
    if pat.isPrefixOf (c :: t) && !pat.isEmpty then
      rep ++ pyReplaceChars pat rep ((c :: t).drop pat.length)
    else
      c :: pyReplaceChars pat rep t
termination_by l => l.length
decreasing_by
  · simp only [List.length_drop, List.length_cons]
    rename_i hp
    simp only [Bool.and_eq_true, Bool.not_eq_true'] at hp
    have : pat.length ≠ 0 := by
      intro h0
      exact absurd (List.length_eq_zero.mp h0) (by simpa using hp.2)
    omega
  · simp

/-- Python `str.replace`. -/
def pyReplace (s pat rep : String) : String :=
  ⟨pyReplaceChars pat.data rep.data s.data⟩

/-- One attempt, at a fixed position, of the unit-id pattern
`\b([A-Z]\d{3}|[A-Z]\d{2}|Unit\s+[A-Z]\d{3})\b` (case-insensitive), given the
preceding character for the left word boundary.  Alternatives are tried in
the source order; the right boundary requires a non-word follow character. -/
def unitIdAt (prev : Option Char) (l : List Char) : Option (List Char) :=
  let boundL := match prev with | none => true | some p => !isWordChar p
  let boundR : List Char → Bool := fun rest =>
    match rest.head? with | none => true | some n => !isWordChar n
  if !boundL then none else
  match l with
  | a :: d1 :: d2 :: d3 :: rest =>
    if isAsciiAlpha a && [d1, d2, d3].all isPyDigit && boundR rest then
      some [a, d1, d2, d3]
    else if isAsciiAlpha a && [d1, d2].all isPyDigit && boundR (d3 :: rest) then
      some [a, d1, d2]
    else
      match matchWordWs "unit".data l with
      | some (r, _) =>
        match r with
        | b :: e1 :: e2 :: e3 :: rest2 =>
          if isAsciiAlpha b && [e1, e2, e3].all isPyDigit && boundR rest2 then
            some (l.take (l.length - r.length) ++ [b, e1, e2, e3])
          else none
        | _ => none
      | none => none
  | [a, d1, d2] =>
    if isAsciiAlpha a && [d1, d2].all isPyDigit then some [a, d1, d2] else none
  | _ => none

/-- Leftmost search of the unit-id pattern. -/
def unitIdSearch (prev : Option Char) : List Char → Option (List Char)
  | [] => none
  | c :: t =>
    match unitIdAt prev (c :: t) with
    | some r => some r
    | none => unitIdSearch (some c) t

/-- One line of `_parse_ai_extracted_data`: split at the first colon, strip
and uppercase the key, strip the value, and apply the guarded assignment for
the recognized keys. -/
def aiLineStep (d : ProspectData) (line : List Char) : ProspectData :=
  match splitFirstColon line with
  | none => d
  | some (k, v) =>
    let key := pyUpper (pyStrip (String.mk k))
    let value := pyStrip (String.mk v)
    if !value.isEmpty && pyUpper value ≠ "NONE" then
      if key = "NAME" && !truthy d.name then
        { d with name := some value }
      else if key = "EMAIL" && !truthy d.email then
        if pyContains value "@" then { d with email := some (pyLower value) } else d
      else if key = "PHONE" && !truthy d.phone then
        let phone_digits := (digitsOnly value).data
        if phone_digits.length = 10 then
          { d with phone := some (formatPhone10 phone_digits) }
        else d
      else if key = "MOVE_IN" && !truthy d.move_in_date then
        { d with move_in_date := some value }
      else if key = "BEDS" && d.beds_wanted.isNone then
        match digitRangeSearch '0' '5' none value.data with
        | some b => { d with beds_wanted := some b }
        | none => d
      else if key = "UNIT" && !truthy d.unit_id then
        match unitIdSearch none value.data with
        | some u =>
          { d with unit_id := some (pyUpper (pyReplace (String.mk u) "Unit " "")) }
        | none => d
      else d
    else d

/-- Embeds `_parse_ai_extracted_data`: strip the AI answer, split it into
lines, and fold the guarded per-line assignments. -/
def parse_ai_extracted_data (d : ProspectData) (extracted_text : String)
    : ProspectData :=
  (splitOnChar '\n' (pyStrip extracted_text).data).foldl aiLineStep d

/-! ## Basic lemmas about truthiness and data completeness -/

theorem truthy_iff (o : Option String) :
    truthy o = true ↔ ∃ s, o = some s ∧ s ≠ "" := by
  cases o with
  | none => simp [truthy]
  | some s =>
    have h := String.isEmpty_iff s
    simp only [truthy, Bool.not_eq_true', Option.some.injEq]
    constructor
    · intro hf
      refine ⟨s, rfl, fun he => ?_⟩
      rw [he] at hf
      rw [show "".isEmpty = true from rfl] at hf
      cases hf
    · rintro ⟨t, ht, hne⟩
      cases ht
      cases hx : s.isEmpty
      · rfl
      · exact absurd (h.mp hx) hne

/-- C3: `_is_data_complete` returns true iff `name`, `email`, `phone` and
`move_in_date` are all present and non-empty and `beds_wanted` is set; the
`beds_wanted` condition is only `is not None`, so a value of 0 (studio)
counts as set. -/
theorem is_data_complete_iff (d : ProspectData) :
    is_data_complete d = true ↔
      ((∃ s, d.name = some s ∧ s ≠ "") ∧ (∃ s, d.email = some s ∧ s ≠ "") ∧
       (∃ s, d.phone = some s ∧ s ≠ "") ∧
       (∃ s, d.move_in_date = some s ∧ s ≠ "") ∧
       (∃ b, d.beds_wanted = some b)) := by
  unfold is_data_complete
  simp only [Bool.and_eq_true, truthy_iff, Option.isSome_iff_exists, and_assoc]

/-- C4: phone normalization is idempotent and confluent on the three quoted
inputs — the already-normalized `(555) 123-4567` maps to itself and
`5551234567`, `555-123-4567`, `(555) 123-4567` all map to `(555) 123-4567` —
and every input whose digits-only form is not exactly 10 digits, nor 11
digits with a leading 1, is rejected (the validator raises). -/
theorem validate_phone_normalization :
    validate_phone (some "(555) 123-4567") = some (some "(555) 123-4567") ∧
    validate_phone (some "5551234567") = some (some "(555) 123-4567") ∧
    validate_phone (some "555-123-4567") = some (some "(555) 123-4567") ∧
    ∀ s : String,
      ¬(digitsOnly s).data.length = 10 →
      ¬((digitsOnly s).data.length = 11 ∧ (digitsOnly s).data.head? = some '1') →
      validate_phone (some s) = none := by
  refine ⟨by decide, by decide, by decide, fun s h10 h11 => ?_⟩
  simp only [validate_phone]
  rw [if_neg h10, if_neg]
  simp only [Bool.and_eq_true, decide_eq_true_eq]
  exact fun hb => h11 ⟨hb.1, hb.2⟩

/-- C2: on the message
`"My name is Kausha, patermanav45@gmail.com 7272727272, Next month"` applied
to a fresh prospect record, the multi-field extraction pass assigns
`name = "Kausha"`, `email = "patermanav45@gmail.com"`, `phone = "7272727272"`
and `move_in_date = "Next month"`; in particular the date segment
`"Next month"` is not assigned to `name`. -/
theorem multi_field_extraction_kausha :
    parse_multiple_fields_from_message {}
        "My name is Kausha, patermanav45@gmail.com 7272727272, Next month" =
      { name := some "Kausha", email := some "patermanav45@gmail.com",
        phone := some "7272727272", move_in_date := some "Next month" } := by
  decide

/-! ## First-write-wins lemmas (C8) -/

lemma pass1Step_name (d : ProspectData) (p : String) :
    (pass1Step d p).name = d.name := by
  simp only [pass1Step]
  repeat' split
  all_goals rfl

lemma pass1Step_move_in (d : ProspectData) (p : String) :
    (pass1Step d p).move_in_date = d.move_in_date := by
  simp only [pass1Step]
  repeat' split
  all_goals rfl

lemma pass1Step_beds (d : ProspectData) (p : String) :
    (pass1Step d p).beds_wanted = d.beds_wanted := by
  simp only [pass1Step]
  repeat' split
  all_goals rfl

lemma pass1Step_email (d : ProspectData) (p : String)
    (h : truthy d.email = true) : (pass1Step d p).email = d.email := by
  simp only [pass1Step, h]
  repeat' split
  all_goals first | rfl | simp_all

lemma pass1Step_phone (d : ProspectData) (p : String)
    (h : truthy d.phone = true) : (pass1Step d p).phone = d.phone := by
  simp only [pass1Step, h]
  repeat' split
  all_goals first | rfl | simp_all

lemma pass2Step_email (d : ProspectData) (p : String) :
    (pass2Step d p).email = d.email := by
  simp only [pass2Step]
  repeat' split
  all_goals rfl

lemma pass2Step_phone (d : ProspectData) (p : String) :
    (pass2Step d p).phone = d.phone := by
  simp only [pass2Step]
  repeat' split
  all_goals rfl

lemma pass2Step_name (d : ProspectData) (p : String)
    (h : truthy d.name = true) : (pass2Step d p).name = d.name := by
  simp only [pass2Step, h]
  repeat' split
  all_goals first | rfl | simp_all

lemma pass2Step_move_in (d : ProspectData) (p : String)
    (h : truthy d.move_in_date = true) :
    (pass2Step d p).move_in_date = d.move_in_date := by
  simp only [pass2Step, h]
  repeat' split
  all_goals first | rfl | simp_all

lemma pass2Step_beds (d : ProspectData) (p : String) (b : Nat)
    (hb : d.beds_wanted = some b) (hb0 : b ≠ 0) :
    (pass2Step d p).beds_wanted = d.beds_wanted := by
  simp only [pass2Step, hb]
  repeat' split
  all_goals first | rfl | simp_all

lemma aiLineStep_name (d : ProspectData) (line : List Char)
    (h : truthy d.name = true) : (aiLineStep d line).name = d.name := by
  simp only [aiLineStep, h]
  repeat' split
  all_goals first | rfl | simp_all

lemma aiLineStep_email (d : ProspectData) (line : List Char)
    (h : truthy d.email = true) : (aiLineStep d line).email = d.email := by
  simp only [aiLineStep, h]
  repeat' split
  all_goals first | rfl | simp_all

lemma aiLineStep_phone (d : ProspectData) (line : List Char)
    (h : truthy d.phone = true) : (aiLineStep d line).phone = d.phone := by
  simp only [aiLineStep, h]
  repeat' split
  all_goals first | rfl | simp_all

lemma aiLineStep_move_in (d : ProspectData) (line : List Char)
    (h : truthy d.move_in_date = true) :
    (aiLineStep d line).move_in_date = d.move_in_date := by
  simp only [aiLineStep, h]
  repeat' split
  all_goals first | rfl | simp_all

lemma aiLineStep_beds (d : ProspectData) (line : List Char)
    (h : d.beds_wanted.isSome = true) :
    (aiLineStep d line).beds_wanted = d.beds_wanted := by
  simp only [aiLineStep]
  repeat' split
  all_goals first | rfl | simp_all

/-- Fold invariance: a field that every step preserves under an invariant of
its value is preserved by the whole fold. -/
lemma foldl_field_invar {α β : Type} (g : ProspectData → β) (P : β → Prop)
    (f : ProspectData → α → ProspectData)
    (hf : ∀ d p, P (g d) → g (f d p) = g d) :
    ∀ (l : List α) (d : ProspectData), P (g d) → g (l.foldl f d) = g d := by
  intro l
  induction l with
  | nil => intro d _; rfl
  | cons p t ih =>
    intro d h
    have h1 := hf d p h
    rw [List.foldl_cons, ih (f d p) (by rw [h1]; exact h), h1]


lemma parse_multi_name (d : ProspectData) (msg : String)
    (h : truthy d.name = true) :
    (parse_multiple_fields_from_message d msg).name = d.name := by
  simp only [parse_multiple_fields_from_message]
  split
  · have h1 : (List.foldl pass1Step d ((splitOnDelims (pyStrip msg).data).map
        fun c => String.mk c)).name = d.name :=
      foldl_field_invar (fun x => x.name) (fun _ => True) pass1Step
        (fun d p _ => pass1Step_name d p) _ d trivial
    rw [foldl_field_invar (fun x => x.name) (fun x => truthy x = true) pass2Step
        (fun d p hh => pass2Step_name d p hh) _ _ (by simp only [h1]; exact h), h1]
  · rfl

lemma parse_multi_email (d : ProspectData) (msg : String)
    (h : truthy d.email = true) :
    (parse_multiple_fields_from_message d msg).email = d.email := by
  simp only [parse_multiple_fields_from_message]
  split
  · have h1 : (List.foldl pass1Step d ((splitOnDelims (pyStrip msg).data).map
        fun c => String.mk c)).email = d.email :=
      foldl_field_invar (fun x => x.email) (fun x => truthy x = true) pass1Step
        (fun d p hh => pass1Step_email d p hh) _ d h
    rw [foldl_field_invar (fun x => x.email) (fun _ => True) pass2Step
        (fun d p _ => pass2Step_email d p) _ _ trivial, h1]
  · rfl

lemma parse_multi_phone (d : ProspectData) (msg : String)
    (h : truthy d.phone = true) :
    (parse_multiple_fields_from_message d msg).phone = d.phone := by
  simp only [parse_multiple_fields_from_message]
  split
  · have h1 : (List.foldl pass1Step d ((splitOnDelims (pyStrip msg).data).map
        fun c => String.mk c)).phone = d.phone :=
      foldl_field_invar (fun x => x.phone) (fun x => truthy x = true) pass1Step
        (fun d p hh => pass1Step_phone d p hh) _ d h
    rw [foldl_field_invar (fun x => x.phone) (fun _ => True) pass2Step
        (fun d p _ => pass2Step_phone d p) _ _ trivial, h1]
  · rfl

lemma parse_multi_move_in (d : ProspectData) (msg : String)
    (h : truthy d.move_in_date = true) :
    (parse_multiple_fields_from_message d msg).move_in_date = d.move_in_date := by
  simp only [parse_multiple_fields_from_message]
  split
  · have h1 : (List.foldl pass1Step d ((splitOnDelims (pyStrip msg).data).map
        fun c => String.mk c)).move_in_date = d.move_in_date :=
      foldl_field_invar (fun x => x.move_in_date) (fun _ => True) pass1Step
        (fun d p _ => pass1Step_move_in d p) _ d trivial
    rw [foldl_field_invar (fun x => x.move_in_date) (fun x => truthy x = true)
        pass2Step (fun d p hh => pass2Step_move_in d p hh) _ _
        (by simp only [h1]; exact h), h1]
  · rfl

lemma parse_multi_beds (d : ProspectData) (msg : String) (b : Nat)
    (hb : d.beds_wanted = some b) (hb0 : b ≠ 0) :
    (parse_multiple_fields_from_message d msg).beds_wanted = some b := by
  simp only [parse_multiple_fields_from_message]
  split
  · have h1 : (List.foldl pass1Step d ((splitOnDelims (pyStrip msg).data).map
        fun c => String.mk c)).beds_wanted = d.beds_wanted :=
      foldl_field_invar (fun x => x.beds_wanted) (fun _ => True) pass1Step
        (fun d p _ => pass1Step_beds d p) _ d trivial
    rw [foldl_field_invar (fun x => x.beds_wanted) (fun x => x = some b) pass2Step
        (fun d p hh => pass2Step_beds d p b hh hb0) _ _ (by simp only [h1, hb]), h1, hb]
  · exact hb

/-- C8 (amended): no extraction pass (multi-field parsing or AI-extracted-data
parsing) overwrites an already-populated `name`, `email`, `phone` or
`move_in_date`, and a populated `beds_wanted` is never overwritten by the
AI-extraction pass; in the multi-field pass `beds_wanted` is preserved
whenever its value is non-zero.  (The original claim fails only for
`beds_wanted = 0`, which the multi-field pass treats as unset — see the
counterexample `beds_zero_overwritten_cex`.) -/
theorem first_write_wins (d : ProspectData) (msg txt : String) :
    (truthy d.name = true →
      (parse_multiple_fields_from_message d msg).name = d.name ∧
      (parse_ai_extracted_data d txt).name = d.name) ∧
    (truthy d.email = true →
      (parse_multiple_fields_from_message d msg).email = d.email ∧
      (parse_ai_extracted_data d txt).email = d.email) ∧
    (truthy d.phone = true →
      (parse_multiple_fields_from_message d msg).phone = d.phone ∧
      (parse_ai_extracted_data d txt).phone = d.phone) ∧
    (truthy d.move_in_date = true →
      (parse_multiple_fields_from_message d msg).move_in_date = d.move_in_date ∧
      (parse_ai_extracted_data d txt).move_in_date = d.move_in_date) ∧
    (∀ b, d.beds_wanted = some b → b ≠ 0 →
      (parse_multiple_fields_from_message d msg).beds_wanted = some b) ∧
    (d.beds_wanted.isSome = true →
      (parse_ai_extracted_data d txt).beds_wanted = d.beds_wanted) := by
  refine ⟨fun h => ⟨parse_multi_name d msg h, ?_⟩,
          fun h => ⟨parse_multi_email d msg h, ?_⟩,
          fun h => ⟨parse_multi_phone d msg h, ?_⟩,
          fun h => ⟨parse_multi_move_in d msg h, ?_⟩,
          fun b hb hb0 => parse_multi_beds d msg b hb hb0,
          fun h => ?_⟩
  · exact foldl_field_invar (fun x => x.name) (fun x => truthy x = true) aiLineStep
      (fun d p hh => aiLineStep_name d p hh) _ d h
  · exact foldl_field_invar (fun x => x.email) (fun x => truthy x = true) aiLineStep
      (fun d p hh => aiLineStep_email d p hh) _ d h
  · exact foldl_field_invar (fun x => x.phone) (fun x => truthy x = true) aiLineStep
      (fun d p hh => aiLineStep_phone d p hh) _ d h
  · exact foldl_field_invar (fun x => x.move_in_date) (fun x => truthy x = true)
      aiLineStep (fun d p hh => aiLineStep_move_in d p hh) _ d h
  · exact foldl_field_invar (fun x => x.beds_wanted) (fun x => x.isSome = true)
      aiLineStep (fun d p hh => aiLineStep_beds d p hh) _ d h

/-- C8 counterexample: a prospect with `beds_wanted = 0` (studio, which the
completeness check counts as set) has that field overwritten to 2 by the
multi-field pass on `"2 bedrooms, asap"`, because the guard
`if not session.prospect_data.beds_wanted` treats 0 as unset. -/
theorem beds_zero_overwritten_cex :
    (parse_multiple_fields_from_message ({ beds_wanted := some 0 } : ProspectData)
        "2 bedrooms, asap").beds_wanted = some 2 ∧
    ({ beds_wanted := some 0 } : ProspectData).beds_wanted = some 0 :=
  ⟨by decide, rfl⟩


/-! ## Sessions, messages and the inventory (`models.py`, `inventory_service.py`) -/

/-- A Python `datetime.datetime` value (naive, as the source uses them). -/
structure DateTime where
  year : Nat
  month : Nat
  day : Nat
  hour : Nat
  minute : Nat
  second : Nat
  microsecond : Nat
  deriving DecidableEq, Repr

/-- Embeds `models.ConversationMessage`. -/
structure ConversationMessage where
  sender : String
  text : String
  timestamp : DateTime
  deriving DecidableEq, Repr

/-- Embeds `models.AIContext` with its field defaults; the preference dict is
modelled as an association list. -/
structure AIContext where
  conversation_summary : String := ""
  user_preferences : List (String × String) := []
  last_ai_response : String := ""
  conversation_stage : String := "greeting"
  extracted_intents : List String := []
  deriving DecidableEq, Repr

/-- Embeds `models.ConversationSession`. -/
structure ConversationSession where
  session_id : String
  state : ChatState
  prospect_data : ProspectData
  messages : List ConversationMessage
  ai_context : AIContext := {}
  created_at : DateTime
  updated_at : DateTime
  deriving DecidableEq, Repr

/-- Embeds `models.Unit` (renamed: `Unit` is taken in Lean).  The half-bath
counts are exact rationals. -/
structure InvUnit where
  unit_id : String
  beds : Nat
  baths : Rat
  sqft : Nat
  rent : Nat
  available : Bool
  deriving DecidableEq, Repr

/-- Embeds `InventoryService.get_unit_by_id`: first unit with the id. -/
def get_unit_by_id (units : List InvUnit) (unit_id : String) : Option InvUnit :=
  units.find? fun u => u.unit_id = unit_id

/-- Embeds `InventoryService.reserve_unit`: flip `available` on the first
unit that matches the id and is still available; the boolean is the Python
return value. -/
def reserve_unit : List InvUnit → String → List InvUnit × Bool
  | [], _ => ([], false)
  | u :: t, unit_id =>
    if u.unit_id = unit_id && u.available then
      ({ u with available := false } :: t, true)
    else
      let r := reserve_unit t unit_id
      (u :: r.1, r.2)

/-- Embeds `InventoryService.check_inventory`.  The 15% random draw is an
explicit parameter `sim_unavailable` (true embeds `random.random() < 0.15`).
A `beds_wanted` of `none` embeds passing Python `None`, which matches no
unit. -/
def check_inventory (units : List InvUnit) (beds : Option Nat)
    (preferred_unit_id : Option String) (sim_unavailable : Bool)
    : Option InvUnit :=
  let available_units := units.filter fun u => some u.beds = beds && u.available
  if available_units.isEmpty then none
  else if truthy preferred_unit_id then
    match available_units.find? fun u => some u.unit_id = preferred_unit_id with
    | some preferred_unit => some preferred_unit
    | none => if sim_unavailable then none else available_units.head?
  else if sim_unavailable then none else available_units.head?

/-- Embeds `InventoryService._create_mock_inventory` (the process-wide unit
list built at start-up; C602 is pre-reserved). -/
def mock_inventory : List InvUnit :=
  [⟨"S104", 0, 1, 450, 1500, true⟩,
   ⟨"S207", 0, 1, 500, 1600, true⟩,
   ⟨"S310", 0, 1, 475, 1550, true⟩,
   ⟨"A101", 1, 1, 650, 1800, true⟩,
   ⟨"A205", 1, 1, 700, 1900, true⟩,
   ⟨"A308", 1, 3 / 2, 750, 2000, true⟩,
   ⟨"A412", 1, 1, 675, 1850, true⟩,
   ⟨"B301", 2, 2, 950, 2400, true⟩,
   ⟨"B402", 2, 2, 1000, 2500, true⟩,
   ⟨"B503", 2, 5 / 2, 1100, 2700, true⟩,
   ⟨"B604", 2, 2, 975, 2450, true⟩,
   ⟨"C501", 3, 5 / 2, 1200, 3200, true⟩,
   ⟨"C602", 3, 5 / 2, 1250, 3300, false⟩,
   ⟨"C703", 3, 3, 1350, 3500, true⟩,
   ⟨"C804", 3, 5 / 2, 1225, 3250, true⟩,
   ⟨"D801", 4, 3, 1600, 4200, true⟩,
   ⟨"D902", 4, 7 / 2, 1750, 4500, true⟩,
   ⟨"D1003", 4, 3, 1650, 4300, true⟩]

/-- Embeds `models.BookedUnit`. -/
structure BookedUnit where
  unit_id : String
  beds : Nat
  baths : Rat
  sqft : Nat
  rent : Nat
  confirmation_number : String
  deriving DecidableEq, Repr

/-- Decimal rendering with thousands separators, Python `f"{n:,}"`. -/
def chunk3 : List Char → List (List Char)
  | [] => []
  | [a] => [[a]]
  | [a, b] => [[a, b]]
  | a :: b :: c :: t => [a, b, c] :: chunk3 t

/-- Python `f"{n:,}"` for a natural number. -/
def natWithCommas (n : Nat) : String :=
  let ds := (toString n).data
  String.mk (List.intercalate [','] (((chunk3 ds.reverse).map List.reverse).reverse))

/-- Python `str` of the half-integral bath counts stored as floats
(`1.0`, `1.5`, `2.0`, ...). -/
def floatStr (q : Rat) : String :=
  if q.den = 1 then toString q.num ++ ".0"
  else toString (q.num / 2) ++ ".5"

/-! ## Unit-selection commands (`chat_service.py`, `_process_with_ai` prefix) -/

/-- Embeds `ChatService._show_selected_units`.  The second component is the
(unchanged) session, made explicit because the Python method mutates the
session it is passed. -/
def show_selected_units (session : ConversationSession) (units : List InvUnit)
    : String × ConversationSession :=
  if session.prospect_data.selected_units.isEmpty then
    ("You haven't selected any units yet. Click on apartment listings or tell me which units you'd like to see!",
     session)
  else
    let unit_details := session.prospect_data.selected_units.filterMap fun uid =>
      (get_unit_by_id units uid).map fun u =>
        "• Unit " ++ u.unit_id ++ ": " ++ toString u.beds ++ " bed/" ++
          floatStr u.baths ++ " bath, " ++ toString u.sqft ++ " sq ft, $" ++
          natWithCommas u.rent ++ "/month"
    if unit_details.isEmpty then
      ("Your selected units are no longer available. Please make new selections.",
       session)
    else
      let unit_list := String.intercalate "\n" unit_details
      let count := session.prospect_data.selected_units.length
      ("📋 Your Selected Units (" ++ toString count ++ " units):\n\n" ++
        unit_list ++
        "\n\nReady to book all " ++ toString count ++
        " units? Just say 'book all' or 'confirm booking'!\nYou can also:\n• Add more units by clicking on listings\n• Remove a unit: \"remove unit A101\"\n• Clear all selections: \"clear selections\"\n",
       session)

/-- Embeds `ChatService._clear_selected_units`. -/
def clear_selected_units (session : ConversationSession)
    : String × ConversationSession :=
  let count := session.prospect_data.selected_units.length
  let session :=
    { session with prospect_data :=
        { session.prospect_data with selected_units := [] } }
  if count > 0 then
    ("✅ Cleared " ++ toString count ++
      " selected units. You can now make new selections!", session)
  else
    ("You don't have any units selected.", session)

/-- Embeds `ChatService._add_selected_unit`. -/
def add_selected_unit (session : ConversationSession) (units : List InvUnit)
    (unit_id : String) : String × ConversationSession :=
  match get_unit_by_id units unit_id with
  | none => ("❌ Unit " ++ unit_id ++ " does not exist.", session)
  | some u =>
    if !u.available then
      ("❌ Unit " ++ unit_id ++ " is not available for booking.", session)
    else if session.prospect_data.selected_units.contains unit_id then
      ("Unit " ++ unit_id ++ " is already in your selections.", session)
    else
      let selected := session.prospect_data.selected_units ++ [unit_id]
      ("✅ Added Unit " ++ unit_id ++ " to your selections! You now have " ++
        toString selected.length ++
        " units selected. Say 'show selected' to see all your selections or 'book all' when ready to book.",
       { session with prospect_data :=
          { session.prospect_data with selected_units := selected } })

/-- Embeds `ChatService._remove_selected_unit`. -/
def remove_selected_unit (session : ConversationSession) (unit_id : String)
    : String × ConversationSession :=
  if session.prospect_data.selected_units.contains unit_id then
    let selected := session.prospect_data.selected_units.erase unit_id
    ("✅ Removed Unit " ++ unit_id ++ " from your selections. You have " ++
      toString selected.length ++ " units selected.",
     { session with prospect_data :=
        { session.prospect_data with selected_units := selected } })
  else
    ("Unit " ++ unit_id ++ " is not in your current selections.", session)

/-- The suffix of `l` after the first occurrence of `pat`, or `none`. -/
def findAfter (pat : List Char) : List Char → Option (List Char)
  | [] => if pat.isEmpty then some [] else none
  | c :: t =>
    if pat.isPrefixOf (c :: t) then some ((c :: t).drop pat.length)
    else findAfter pat t

/-- Match `unit\s+([a-z]\d{2,3})` at the head of an (already lowercased)
character list; returns the captured id and the remainder. -/
def unitTokenAt (l : List Char) : Option (List Char × List Char) :=
  match matchWordWs "unit".data l with
  | some (r, _) =>
    match r with
    | a :: d1 :: d2 :: rest =>
      if ('a' ≤ a && a ≤ 'z') && isPyDigit d1 && isPyDigit d2 then
        match rest with
        | d3 :: rest2 =>
          if isPyDigit d3 then some ([a, d1, d2, d3], rest2)
          else some ([a, d1, d2], rest)
        | [] => some ([a, d1, d2], [])
      else none
    | _ => none
  | none => none

/-- Leftmost occurrence of `unit\s+([a-z]\d{2,3})`. -/
def searchUnitToken : List Char → Option (List Char × List Char)
  | [] => none
  | c :: t =>
    match unitTokenAt (c :: t) with
    | some r => some r
    | none => searchUnitToken t

/-- Embeds `re.search(r"add.*?unit\s+([a-z]\d{2,3}).*?to my selections", m)`
on the lowercased message: an `add`, then a unit token, then the literal
tail, in that order. -/
def findAddUnitId (m : List Char) : Option String :=
  match findAfter "add".data m with
  | none => none
  | some rest =>
    match searchUnitToken rest with
    | none => none
    | some (uid, rest2) =>
      if containsSeq "to my selections".data rest2 then some (String.mk uid)
      else none

/-- Embeds
`re.search(r"remove.*?unit\s+([a-z]\d{2,3}).*?from my selections", m)`. -/
def findRemoveUnitId (m : List Char) : Option String :=
  match findAfter "remove".data m with
  | none => none
  | some rest =>
    match searchUnitToken rest with
    | none => none
    | some (uid, rest2) =>
      if containsSeq "from my selections".data rest2 then some (String.mk uid)
      else none

/-- Embeds the priority dispatch at the top of `_process_with_ai`: the four
unit-selection commands, recognized by substring match on the lowercased
message and handled immediately.  `none` means the message is not handled as
a unit-selection command and processing falls through to the rest of the
method (including the case where the outer substring test fires but the
capture regex does not match). -/
def process_unit_selection_command (session : ConversationSession)
    (units : List InvUnit) (message : String)
    : Option (String × ConversationSession) :=
  let m := pyLower message
  if pyContains m "add unit" && pyContains m "to my selections" then
    match findAddUnitId m.data with
    | some uid => some (add_selected_unit session units (pyUpper uid))
    | none => none
  else if pyContains m "remove unit" && pyContains m "from my selections" then
    match findRemoveUnitId m.data with
    | some uid => some (remove_selected_unit session (pyUpper uid))
    | none => none
  else if pyContains m "show selected" || pyContains m "my selections" then
    some (show_selected_units session units)
  else if pyContains m "clear selections" || pyContains m "remove all" then
    some (clear_selected_units session)
  else none

/-! ## Booking handlers (`_handle_booking_intent`,
`_handle_multiple_booking_intent`)

The Python handlers mutate the session, the process-wide inventory, and
return a reply string; they also call the email service, the tour-slot
generator and the confirmation-number generator.  The embedding passes the
external collaborators in (`email_sent` is the boolean outcome of the email
service, `tour_date`/`tour_time` the generated slot, `gen_conf` the nth
confirmation number, `office_address`/`office_phone` the email-service
configuration) and returns the reply together with the updated session and
inventory. -/

/-- Result of the single-unit booking handler. -/
structure HandlerResult where
  reply : String
  session : ConversationSession
  units : List InvUnit
  deriving Repr

/-- Result of the multiple-unit booking handler; `booked_units` is the list
of `BookedUnit` records the handler builds for the confirmation email. -/
structure MultiHandlerResult where
  reply : String
  session : ConversationSession
  units : List InvUnit
  booked_units : List BookedUnit
  deriving Repr

/-- The per-id test of the availability-validation loop of
`_handle_multiple_booking_intent`: the unit, when it exists and is still
available. -/
def unit_if_available (units : List InvUnit) (uid : String) : Option InvUnit :=
  match get_unit_by_id units uid with
  | some u => if u.available then some u else none
  | none => none

/-- The complementary test of the same loop: the id goes to
`unavailable_units` when the unit is missing or no longer available. -/
def unit_unavailable_check (units : List InvUnit) (uid : String) : Bool :=
  match get_unit_by_id units uid with
  | some u => !u.available
  | none => true

/-- Embeds `ChatService._handle_multiple_booking_intent`. -/
def handle_multiple_booking_intent (session : ConversationSession)
    (units : List InvUnit) (email_sent : Bool) (tour_date tour_time : String)
    (gen_conf : Nat → String) (office_address office_phone : String)
    : MultiHandlerResult :=
  if !is_data_complete session.prospect_data then
    { reply := "I need a bit more information before booking. Missing: " ++
        String.intercalate ", " (get_missing_fields session.prospect_data),
      session := session, units := units, booked_units := [] }
  else if session.prospect_data.selected_units.isEmpty then
    { reply := "You haven't selected any units to book. Please select units first by clicking on listings or telling me which units you want.",
      session := session, units := units, booked_units := [] }
  else
    let available_units := session.prospect_data.selected_units.filterMap
      (unit_if_available units)
    let unavailable_units := session.prospect_data.selected_units.filter
      (unit_unavailable_check units)
    let selected := unavailable_units.foldl List.erase
      session.prospect_data.selected_units
    let session :=
      { session with prospect_data :=
          { session.prospect_data with selected_units := selected } }
    match available_units with
    | [] =>
      { reply := "I'm sorry, none of your selected units are available anymore: " ++
          String.intercalate ", " unavailable_units ++ ". Please make new selections.",
        session := session, units := units, booked_units := [] }
    | u0 :: _ =>
      let booked_units := available_units.enum.map fun p =>
        BookedUnit.mk p.2.unit_id p.2.beds p.2.baths p.2.sqft p.2.rent
          (gen_conf p.1)
      let units1 := available_units.foldl
        (fun acc u => (reserve_unit acc u.unit_id).1) units
      let session :=
        { session with
            state := ChatState.booking_confirmed,
            prospect_data :=
              { session.prospect_data with
                  selected_units := selected, unit_id := some u0.unit_id } }
      let unit_list := String.intercalate ", "
        (available_units.map fun u => u.unit_id)
      if email_sent then
        { reply := "🎉 Perfect! Your tours for " ++
            toString available_units.length ++ " units are confirmed for " ++
            tour_date ++ " at " ++ tour_time ++ ". Units booked: " ++
            unit_list ++ ". I've sent a comprehensive confirmation email to " ++
            pyShow session.prospect_data.email ++
            ". Please check your inbox and spam/junk folder if you don't see it within a few minutes. The email contains all the details for each unit including individual confirmation numbers. If you have any issues, you can also call our leasing office at " ++
            office_phone ++ ". We'll see you at " ++
            pyShow session.prospect_data.property_address ++ "!",
          session := session, units := units1, booked_units := booked_units }
      else
        { reply := "✅ Your tours for " ++ toString available_units.length ++
            " units are confirmed for " ++ tour_date ++ " at " ++ tour_time ++
            "! Units: " ++ unit_list ++
            ". 📧 Email notifications are currently unavailable (demo mode), but your bookings are secured. 📍 Location: " ++
            office_address ++ " 📞 Contact: " ++ office_phone ++
            " 💡 Please save these details for your records!",
          session := session, units := units1, booked_units := booked_units }

/-- The shared tail of `_handle_booking_intent` once a unit is resolved:
reserve it, store the legacy `unit_id`, make sure the unit is in
`selected_units`, set `BOOKING_CONFIRMED`, and build the success or
degraded reply — both email branches of the source perform the same state
updates. -/
def book_resolved_unit (session : ConversationSession) (units : List InvUnit)
    (available_unit : InvUnit) (email_sent : Bool)
    (tour_date tour_time office_address office_phone : String)
    : HandlerResult :=
  let units1 := (reserve_unit units available_unit.unit_id).1
  let pd := session.prospect_data
  let pd :=
    { pd with
        unit_id := some available_unit.unit_id,
        selected_units :=
          if pd.selected_units.contains available_unit.unit_id then
            pd.selected_units
          else pd.selected_units ++ [available_unit.unit_id] }
  let session :=
    { session with state := ChatState.booking_confirmed, prospect_data := pd }
  if email_sent then
    { reply := "Perfect! Your tour is confirmed for " ++ tour_date ++ " at " ++
        tour_time ++ ". I've sent a confirmation email to " ++
        pyShow session.prospect_data.email ++
        ". Please check your inbox and spam/junk folder if you don't see it within a few minutes. The email contains all the details including what to bring. If you have any issues, you can also call our leasing office at " ++
        office_phone ++ ". We'll see you at " ++
        pyShow session.prospect_data.property_address ++ "!",
      session := session, units := units1 }
  else
    { reply := "✅ Your tour is confirmed for " ++ tour_date ++ " at " ++
        tour_time ++
        "! 📧 Email notifications are currently unavailable (demo mode), but your booking is secured. 📍 Location: " ++
        office_address ++ " 📞 Contact: " ++ office_phone ++
        " 💡 Please save these details for your records!",
      session := session, units := units1 }

/-- Embeds `ChatService._handle_booking_intent`.  `sim_unavailable` is the
random draw inside the legacy `check_inventory` fallback. -/
def handle_booking_intent (session : ConversationSession)
    (units : List InvUnit) (email_sent sim_unavailable : Bool)
    (tour_date tour_time : String) (gen_conf : Nat → String)
    (office_address office_phone : String) : HandlerResult :=
  if session.prospect_data.selected_units.length > 1 then
    let m := handle_multiple_booking_intent session units email_sent
      tour_date tour_time gen_conf office_address office_phone
    { reply := m.reply, session := m.session, units := m.units }
  else if !is_data_complete session.prospect_data then
    { reply := "I need a bit more information before booking. Missing: " ++
        String.intercalate ", " (get_missing_fields session.prospect_data),
      session := session, units := units }
  else
    match session.prospect_data.selected_units with
    | unit_id :: _ =>
      match get_unit_by_id units unit_id with
      | some u =>
        if u.available then
          book_resolved_unit session units u email_sent tour_date tour_time
            office_address office_phone
        else
          { reply := "I'm sorry, Unit " ++ unit_id ++
              " is no longer available. Let me check for other options.",
            session := session, units := units }
      | none =>
        { reply := "I'm sorry, Unit " ++ unit_id ++
            " is no longer available. Let me check for other options.",
          session := session, units := units }
    | [] =>
      let preferred_unit_id :=
        if truthy session.prospect_data.unit_id then
          session.prospect_data.unit_id
        else none
      match check_inventory units session.prospect_data.beds_wanted
          preferred_unit_id sim_unavailable with
      | some u =>
        book_resolved_unit session units u email_sent tour_date tour_time
          office_address office_phone
      | none =>
        { reply := "I'm sorry, that unit is no longer available. Let me check for other options.",
          session := session, units := units }


lemma get_unit_by_id_some (units : List InvUnit) (uid : String) (u : InvUnit)
    (h : get_unit_by_id units uid = some u) : u.unit_id = uid := by
  unfold get_unit_by_id at h
  have := List.find?_some h
  simpa using this

lemma reserve_lookup_self : ∀ (units : List InvUnit) (uid : String) (u : InvUnit),
    get_unit_by_id units uid = some u → u.available = true →
    get_unit_by_id (reserve_unit units uid).1 uid = some { u with available := false }
  | [], uid, u => by simp [get_unit_by_id]
  | v :: t, uid, u => by
    intro hfind hav
    by_cases hv : v.unit_id = uid
    · have hvu : v = u := by
        simp [get_unit_by_id, hv] at hfind
        exact hfind
      subst hvu
      simp [get_unit_by_id, reserve_unit, hv, hav]
    · have hrec := reserve_lookup_self t uid u
        (by simp [get_unit_by_id, hv] at hfind; simpa [get_unit_by_id] using hfind) hav
      simp only [get_unit_by_id, reserve_unit] at hrec ⊢
      rw [if_neg (show ¬(v.unit_id = uid && v.available) = true by simp [hv])]
      rw [List.find?_cons_of_neg _ (by simpa using hv)]
      exact hrec

lemma data_head_append (s t : String) (c : Char)
    (h : s.data.head? = some c) : (s ++ t).data.head? = some c := by
  cases hs : s.data with
  | nil => rw [hs] at h; cases h
  | cons a l =>
    rw [hs] at h
    show (s.data ++ t.data).head? = some c
    rw [hs]
    simpa using h

/-- C5: when single-unit booking resolves an available selected unit and the
notification send fails, the session still transitions to
`BOOKING_CONFIRMED` and the unit is still reserved (its `available` flag is
false in the resulting inventory); the resulting session and inventory are
identical to the ones of the successful-notification path, and only the
reply text differs. -/
theorem single_booking_email_failure
    (session : ConversationSession) (units : List InvUnit) (u : String)
    (unit : InvUnit) (sim : Bool) (tour_date tour_time : String)
    (gen_conf : Nat → String) (office_address office_phone : String)
    (hsel : session.prospect_data.selected_units = [u])
    (hc : is_data_complete session.prospect_data = true)
    (hfind : get_unit_by_id units u = some unit)
    (hav : unit.available = true) :
    (handle_booking_intent session units false sim tour_date tour_time
        gen_conf office_address office_phone).session.state =
      ChatState.booking_confirmed ∧
    get_unit_by_id (handle_booking_intent session units false sim tour_date
        tour_time gen_conf office_address office_phone).units u =
      some { unit with available := false } ∧
    (handle_booking_intent session units true sim tour_date tour_time
        gen_conf office_address office_phone).session =
      (handle_booking_intent session units false sim tour_date tour_time
        gen_conf office_address office_phone).session ∧
    (handle_booking_intent session units true sim tour_date tour_time
        gen_conf office_address office_phone).units =
      (handle_booking_intent session units false sim tour_date tour_time
        gen_conf office_address office_phone).units ∧
    (handle_booking_intent session units true sim tour_date tour_time
        gen_conf office_address office_phone).reply ≠
      (handle_booking_intent session units false sim tour_date tour_time
        gen_conf office_address office_phone).reply := by
  have huid : unit.unit_id = u := get_unit_by_id_some units u unit hfind
  have hred : ∀ es : Bool,
      handle_booking_intent session units es sim tour_date tour_time
        gen_conf office_address office_phone =
      book_resolved_unit session units unit es tour_date tour_time
        office_address office_phone := by
    intro es
    rw [handle_booking_intent, hsel]
    rw [if_neg (by simp), if_neg (by simp [hc])]
    simp only [hfind, hav, if_true]
  rw [hred true, hred false]
  refine ⟨?_, ?_, ?_, ?_, ?_⟩
  · simp only [book_resolved_unit]
    split
    all_goals rfl
  · have hres := reserve_lookup_self units u unit hfind hav
    simp only [book_resolved_unit]
    rw [huid]
    rw [huid] at hres
    split
    all_goals exact hres
  · simp [book_resolved_unit]
  · simp [book_resolved_unit]
  · simp only [book_resolved_unit, Bool.false_eq_true, if_false, if_true]
    intro heq
    have hP : (("Perfect! Your tour is confirmed for " ++ tour_date ++ " at " ++
        tour_time ++ ". I've sent a confirmation email to " ++
        pyShow session.prospect_data.email ++
        ". Please check your inbox and spam/junk folder if you don't see it within a few minutes. The email contains all the details including what to bring. If you have any issues, you can also call our leasing office at " ++
        office_phone ++ ". We'll see you at " ++
        pyShow session.prospect_data.property_address ++ "!")).data.head? =
        some 'P' := by
      repeat apply data_head_append
      rfl
    rw [heq] at hP
    have hV : (("✅ Your tour is confirmed for " ++ tour_date ++ " at " ++
        tour_time ++
        "! 📧 Email notifications are currently unavailable (demo mode), but your booking is secured. 📍 Location: " ++
        office_address ++ " 📞 Contact: " ++ office_phone ++
        " 💡 Please save these details for your records!")).data.head? =
        some '✅' := by
      repeat apply data_head_append
      rfl
    rw [hV] at hP
    cases hP



/-- C1 (amended): with complete prospect data, an empty `selected_units`
list and no legacy `unit_id`, the MULTIPLE-unit booking handler fails with
the "You haven't selected any units to book" message and changes neither the
session (in particular its state) nor the inventory.  The single-unit
handler on the same session instead falls back to the legacy bedroom-count
inventory search and can book — see `booking_empty_selection_books_cex`. -/
theorem multiple_booking_no_units_selected
    (session : ConversationSession) (units : List InvUnit) (email_sent : Bool)
    (tour_date tour_time : String) (gen_conf : Nat → String)
    (office_address office_phone : String)
    (hc : is_data_complete session.prospect_data = true)
    (hsel : session.prospect_data.selected_units = [])
    (hlegacy : session.prospect_data.unit_id = none) :
    handle_multiple_booking_intent session units email_sent tour_date
        tour_time gen_conf office_address office_phone =
      { reply := "You haven't selected any units to book. Please select units first by clicking on listings or telling me which units you want.",
        session := session, units := units, booked_units := [] } := by
  rw [handle_multiple_booking_intent]
  rw [if_neg (by simp [hc])]
  rw [if_pos (by simp [hsel])]

def sampleDT : DateTime := ⟨2025, 10, 1, 12, 0, 0, 0⟩

/-- A session with complete prospect data, no selected units and no legacy
unit id, about to issue a booking request. -/
def noSelectionSession : ConversationSession :=
  { session_id := "sess-c1",
    state := ChatState.ready_to_book,
    prospect_data :=
      { name := some "Jane Doe", email := some "jane.doe@example.com",
        phone := some "(555) 123-4567", move_in_date := some "ASAP",
        beds_wanted := some 1, unit_id := none, selected_units := [] },
    messages := [], created_at := sampleDT, updated_at := sampleDT }

theorem booking_empty_selection_books_cex :
    (handle_booking_intent noSelectionSession mock_inventory true false
        "Friday, October 17" "2:00 PM" (fun _ => "CONF-1") "123 Main St"
        "(555) 123-4567").session.state = ChatState.booking_confirmed ∧
    noSelectionSession.state = ChatState.ready_to_book ∧
    noSelectionSession.prospect_data.selected_units = [] ∧
    noSelectionSession.prospect_data.unit_id = none ∧
    is_data_complete noSelectionSession.prospect_data = true := by
  decide

theorem multiple_booking_no_units_selected_witness :
    handle_multiple_booking_intent noSelectionSession mock_inventory true
        "Friday, October 17" "2:00 PM" (fun _ => "CONF-1") "123 Main St"
        "(555) 123-4567" =
      { reply := "You haven't selected any units to book. Please select units first by clicking on listings or telling me which units you want.",
        session := noSelectionSession, units := mock_inventory,
        booked_units := [] } :=
  multiple_booking_no_units_selected noSelectionSession mock_inventory true
    "Friday, October 17" "2:00 PM" (fun _ => "CONF-1") "123 Main St"
    "(555) 123-4567" (by decide) rfl rfl

lemma show_selected_units_frame (s : ConversationSession)
    (units : List InvUnit) : (show_selected_units s units).2 = s := by
  simp only [show_selected_units]
  repeat' split
  all_goals rfl

lemma clear_selected_units_frame (s : ConversationSession) :
    (clear_selected_units s).2 =
      { s with prospect_data := { s.prospect_data with
          selected_units := (clear_selected_units s).2.prospect_data.selected_units } } := by
  simp only [clear_selected_units]
  split
  all_goals rfl

lemma add_selected_unit_frame (s : ConversationSession) (units : List InvUnit)
    (uid : String) : (add_selected_unit s units uid).2 =
      { s with prospect_data := { s.prospect_data with
          selected_units := (add_selected_unit s units uid).2.prospect_data.selected_units } } := by
  simp only [add_selected_unit]
  repeat' split
  all_goals rfl

lemma remove_selected_unit_frame (s : ConversationSession) (uid : String) :
    (remove_selected_unit s uid).2 =
      { s with prospect_data := { s.prospect_data with
          selected_units := (remove_selected_unit s uid).2.prospect_data.selected_units } } := by
  simp only [remove_selected_unit]
  repeat' split
  all_goals rfl

/-- C7: whenever the priority dispatch of `_process_with_ai` recognizes and
handles a message as a unit-selection command (add unit / remove unit /
show selected / clear selections), the resulting session has the same state
as before — indeed everything except `selected_units` is unchanged. -/
theorem unit_selection_preserves_state
    (session : ConversationSession) (units : List InvUnit)
    (message : String) (r : String × ConversationSession)
    (h : process_unit_selection_command session units message = some r) :
    r.2.state = session.state ∧
    r.2 = { session with prospect_data := { session.prospect_data with
            selected_units := r.2.prospect_data.selected_units } } := by
  have key : r.2 = { session with prospect_data := { session.prospect_data with
      selected_units := r.2.prospect_data.selected_units } } := by
    simp only [process_unit_selection_command] at h
    repeat' split at h
    all_goals
      first
        | exact Option.noConfusion h
        | (cases Option.some.inj h
           first
             | exact add_selected_unit_frame session units _
             | exact remove_selected_unit_frame session _
             | rw [show_selected_units_frame session units]
             | exact clear_selected_units_frame session)
  exact ⟨by rw [key], key⟩


/-- Witness for C7 at a concrete input: "show selected" on a session in
state `ready_to_book` leaves the session unchanged. -/
theorem unit_selection_preserves_state_witness :
    noSelectionSession.state = noSelectionSession.state ∧
    noSelectionSession = { noSelectionSession with prospect_data :=
      { noSelectionSession.prospect_data with
          selected_units := noSelectionSession.prospect_data.selected_units } } :=
  unit_selection_preserves_state noSelectionSession mock_inventory
    "show selected"
    ("You haven't selected any units yet. Click on apartment listings or tell me which units you'd like to see!",
      noSelectionSession)
    (by decide)

/-- A session identical to `noSelectionSession` but with unit A101 selected. -/
def oneSelectionSession : ConversationSession :=
  { session_id := "sess-c5",
    state := ChatState.ready_to_book,
    prospect_data :=
      { name := some "Jane Doe", email := some "jane.doe@example.com",
        phone := some "(555) 123-4567", move_in_date := some "ASAP",
        beds_wanted := some 1, unit_id := none,
        selected_units := ["A101"] },
    messages := [], created_at := sampleDT, updated_at := sampleDT }

/-- Witness for C5 at a concrete input: an email failure while booking the
selected unit A101 still confirms the booking. -/
theorem single_booking_email_failure_witness :
    (handle_booking_intent oneSelectionSession mock_inventory false false
        "Friday, October 17" "2:00 PM" (fun _ => "CONF-1") "123 Main St"
        "(555) 123-4567").session.state = ChatState.booking_confirmed :=
  (single_booking_email_failure oneSelectionSession mock_inventory "A101"
    ⟨"A101", 1, 1, 650, 1800, true⟩ false "Friday, October 17" "2:00 PM"
    (fun _ => "CONF-1") "123 Main St" "(555) 123-4567" rfl (by decide)
    (by decide) rfl).1


/-- Availability of a selected unit id, as the multiple-booking handler
tests it. -/
def unit_id_available (units : List InvUnit) (uid : String) : Bool :=
  match get_unit_by_id units uid with
  | some u => u.available
  | none => false

lemma erase_foldl_cons_of_ne {x : String} {ys : List String} :
    ∀ zs : List String, (∀ z ∈ zs, z ≠ x) →
      List.foldl List.erase (x :: ys) zs = x :: List.foldl List.erase ys zs
  | [], _ => rfl
  | z :: zs, h => by
    have hz : z ≠ x := h z (List.mem_cons_self z zs)
    rw [List.foldl_cons, List.foldl_cons,
      List.erase_cons_tail (by simpa using fun he => hz (by simp [he]))]
    exact erase_foldl_cons_of_ne zs fun w hw => h w (List.mem_cons_of_mem z hw)

/-- Removing, one by one, every element that fails `p` (with multiplicity)
leaves exactly the elements that satisfy `p`. -/
lemma foldl_erase_filter (p : String → Bool) :
    ∀ l : List String,
      List.foldl List.erase l (l.filter fun x => !p x) = l.filter p
  | [] => rfl
  | x :: xs => by
    cases hx : p x with
    | true =>
      rw [List.filter_cons_of_neg (by simp [hx]), List.filter_cons_of_pos (by simp [hx])]
      rw [erase_foldl_cons_of_ne (xs.filter fun x => !p x) ?_]
      · rw [foldl_erase_filter p xs]
      · intro z hz he
        have := List.of_mem_filter hz
        rw [he] at this
        simp [hx] at this
    | false =>
      rw [List.filter_cons_of_pos (by simp [hx]), List.filter_cons_of_neg (by simp [hx])]
      rw [List.foldl_cons, List.erase_cons_head]
      exact foldl_erase_filter p xs

/-- The ids of the units the handler collects as still available are exactly
the selected ids that pass the availability test, in order. -/
lemma available_units_ids (units : List InvUnit) :
    ∀ sel : List String,
      ((sel.filterMap (unit_if_available units)).map fun u => u.unit_id)
        = sel.filter (unit_id_available units)
  | [] => rfl
  | uid :: t => by
    rw [List.filterMap_cons]
    cases hg : get_unit_by_id units uid with
    | none =>
      rw [show unit_if_available units uid = none by
        simp [unit_if_available, hg]]
      rw [List.filter_cons_of_neg (by simp [unit_id_available, hg])]
      exact available_units_ids units t
    | some u =>
      have huid : u.unit_id = uid := get_unit_by_id_some units uid u hg
      cases ha : u.available with
      | true =>
        rw [show unit_if_available units uid = some u by
          simp [unit_if_available, hg, ha]]
        rw [List.filter_cons_of_pos (by simp [unit_id_available, hg, ha]),
          List.map_cons, huid]
        rw [available_units_ids units t]
      | false =>
        rw [show unit_if_available units uid = none by
          simp [unit_if_available, hg, ha]]
        rw [List.filter_cons_of_neg (by simp [unit_id_available, hg, ha])]
        exact available_units_ids units t

lemma get_reserve_ne (a b : String) (hne : b ≠ a) :
    ∀ units : List InvUnit,
      get_unit_by_id (reserve_unit units a).1 b = get_unit_by_id units b
  | [] => rfl
  | v :: t => by
    by_cases hv : (v.unit_id = a && v.available) = true
    · simp only [reserve_unit, if_pos hv]
      have hvb : ¬v.unit_id = b := by
        simp only [Bool.and_eq_true, decide_eq_true_eq] at hv
        rw [hv.1]
        exact fun he => hne he.symm
      unfold get_unit_by_id
      rw [List.find?_cons_of_neg _ (by simpa using hvb),
        List.find?_cons_of_neg _ (by simpa using hvb)]
    · simp only [reserve_unit, if_neg hv]
      by_cases hvb : v.unit_id = b
      · unfold get_unit_by_id
        rw [List.find?_cons_of_pos _ (by simpa using hvb),
          List.find?_cons_of_pos _ (by simpa using hvb)]
      · unfold get_unit_by_id
        rw [List.find?_cons_of_neg _ (by simpa using hvb),
          List.find?_cons_of_neg _ (by simpa using hvb)]
        exact get_reserve_ne a b hne t

lemma get_reserve_stays (a uid : String) (u : InvUnit) (hf : u.available = false) :
    ∀ units : List InvUnit, get_unit_by_id units uid = some u →
      get_unit_by_id (reserve_unit units a).1 uid = some u
  | [] => by simp [get_unit_by_id]
  | v :: t => by
    intro h
    by_cases hvb : v.unit_id = uid
    · have hvu : v = u := by
        unfold get_unit_by_id at h
        rw [List.find?_cons_of_pos _ (by simpa using hvb)] at h
        exact Option.some.inj h
      subst hvu
      have hcond : ¬(v.unit_id = a && v.available) = true := by simp [hf]
      simp only [reserve_unit, if_neg hcond]
      unfold get_unit_by_id
      rw [List.find?_cons_of_pos _ (by simpa using hvb)]
    · have ht : get_unit_by_id t uid = some u := by
        unfold get_unit_by_id at h ⊢
        rwa [List.find?_cons_of_neg _ (by simpa using hvb)] at h
      by_cases hv : (v.unit_id = a && v.available) = true
      · simp only [reserve_unit, if_pos hv]
        unfold get_unit_by_id
        have : ¬({ v with available := false } : InvUnit).unit_id = uid := hvb
        rw [List.find?_cons_of_neg _ (by simpa using this)]
        exact ht
      · simp only [reserve_unit, if_neg hv]
        unfold get_unit_by_id
        rw [List.find?_cons_of_neg _ (by simpa using hvb)]
        exact get_reserve_stays a uid u hf t ht

/-- Reserving an id makes the first unit with that id unavailable (whether
or not it was still available). -/
lemma get_reserve_self (units : List InvUnit) (uid : String) (u : InvUnit)
    (h : get_unit_by_id units uid = some u) :
    get_unit_by_id (reserve_unit units uid).1 uid =
      some { u with available := false } := by
  cases ha : u.available with
  | true => exact reserve_lookup_self units uid u h ha
  | false =>
    have : ({ u with available := false } : InvUnit) = u := by
      cases u
      simp_all
    rw [this]
    exact get_reserve_stays uid uid u ha units h

/-- After folding reservations, a looked-up unit that was already
unavailable stays unavailable. -/
lemma foldl_reserve_keeps_false :
    ∀ (L : List InvUnit) (units : List InvUnit) (uid : String) (u : InvUnit),
      get_unit_by_id units uid = some u → u.available = false →
      get_unit_by_id
        (L.foldl (fun acc x => (reserve_unit acc x.unit_id).1) units) uid =
        some u
  | [], units, uid, u => fun h _ => h
  | x :: t, units, uid, u => fun h hf => by
    rw [List.foldl_cons]
    exact foldl_reserve_keeps_false t _ uid u (get_reserve_stays x.unit_id uid u hf units h) hf

/-- After folding reservations over a unit list containing the id, the
looked-up unit is unavailable. -/
lemma foldl_reserve_mem :
    ∀ (L : List InvUnit) (units : List InvUnit) (uid : String) (u : InvUnit),
      get_unit_by_id units uid = some u → uid ∈ L.map (fun x => x.unit_id) →
      ∃ u', get_unit_by_id
          (L.foldl (fun acc x => (reserve_unit acc x.unit_id).1) units) uid =
          some u' ∧ u'.available = false
  | [], units, uid, u => fun _ hm => by cases hm
  | x :: t, units, uid, u => fun h hm => by
    rw [List.foldl_cons]
    by_cases hx : x.unit_id = uid
    · subst hx
      have h1 := get_reserve_self units x.unit_id u h
      exact ⟨{ u with available := false },
        foldl_reserve_keeps_false t _ x.unit_id _ h1 rfl, rfl⟩
    · have h1 : get_unit_by_id (reserve_unit units x.unit_id).1 uid = some u :=
        get_reserve_ne x.unit_id uid (fun he => hx he.symm) units ▸ h
      have hm' : uid ∈ t.map fun x => x.unit_id := by
        simp only [List.map_cons, List.mem_cons] at hm
        rcases hm with h' | h'
        · exact absurd h'.symm hx
        · exact h'
      exact foldl_reserve_mem t _ uid u h1 hm'

lemma enumFrom_map_snd_fn {β : Type} (g : InvUnit → β) :
    ∀ (n : Nat) (l : List InvUnit),
      ((l.enumFrom n).map fun p => g p.2) = l.map g
  | _, [] => rfl
  | n, a :: t => by
    simp only [List.enumFrom, List.map_cons]
    rw [enumFrom_map_snd_fn g (n + 1) t]



/-- C6: in a multi-unit booking with complete data and a non-empty
selection, every selected id whose unit has become unavailable is removed
from `selected_units` (the surviving list is exactly the still-available
ids, in order), the booked-unit records the reply is built from list exactly
those ids, every surviving unit is reserved in the resulting inventory, and
the state still becomes `BOOKING_CONFIRMED`; when no selected unit is still
available the handler fails with no state transition and no inventory
change (though the unavailable ids are still dropped). -/
theorem multiple_booking_drops_unavailable
    (session : ConversationSession) (units : List InvUnit) (email_sent : Bool)
    (tour_date tour_time : String) (gen_conf : Nat → String)
    (office_address office_phone : String)
    (hc : is_data_complete session.prospect_data = true)
    (hsel : session.prospect_data.selected_units ≠ []) :
    (session.prospect_data.selected_units.filter (unit_id_available units) ≠ [] →
      (handle_multiple_booking_intent session units email_sent tour_date
          tour_time gen_conf office_address office_phone).session.state =
        ChatState.booking_confirmed ∧
      (handle_multiple_booking_intent session units email_sent tour_date
          tour_time gen_conf office_address office_phone).session.prospect_data.selected_units =
        session.prospect_data.selected_units.filter (unit_id_available units) ∧
      (handle_multiple_booking_intent session units email_sent tour_date
          tour_time gen_conf office_address office_phone).booked_units.map
          (fun b => b.unit_id) =
        session.prospect_data.selected_units.filter (unit_id_available units) ∧
      ∀ uid ∈ session.prospect_data.selected_units.filter (unit_id_available units),
        ∃ u', get_unit_by_id (handle_multiple_booking_intent session units
            email_sent tour_date tour_time gen_conf office_address
            office_phone).units uid = some u' ∧ u'.available = false) ∧
    (session.prospect_data.selected_units.filter (unit_id_available units) = [] →
      (handle_multiple_booking_intent session units email_sent tour_date
          tour_time gen_conf office_address office_phone).session.state =
        session.state ∧
      (handle_multiple_booking_intent session units email_sent tour_date
          tour_time gen_conf office_address office_phone).units = units ∧
      (handle_multiple_booking_intent session units email_sent tour_date
          tour_time gen_conf office_address office_phone).session.prospect_data.selected_units = [] ∧
      (handle_multiple_booking_intent session units email_sent tour_date
          tour_time gen_conf office_address office_phone).booked_units = []) := by
  have hfact1 := available_units_ids units session.prospect_data.selected_units
  have hfact2 : session.prospect_data.selected_units.filter
      (unit_unavailable_check units) =
      session.prospect_data.selected_units.filter
        (fun x => !unit_id_available units x) := by
    apply List.filter_congr
    intro x _
    unfold unit_unavailable_check unit_id_available
    cases get_unit_by_id units x <;> rfl
  have hfact3 := foldl_erase_filter (unit_id_available units)
    session.prospect_data.selected_units
  simp only [handle_multiple_booking_intent]
  rw [if_neg (by simp [hc]), if_neg (by simp [List.isEmpty_iff, hsel])]
  split
  · rename_i hAV
    rw [hAV] at hfact1
    simp only [List.map_nil] at hfact1
    constructor
    · intro hne
      exact absurd hfact1.symm hne
    · intro _
      refine ⟨rfl, rfl, ?_, rfl⟩
      dsimp only
      rw [hfact2, hfact3]
      exact hfact1.symm
  · rename_i u0 rest hAV
    rw [hAV]
    have hfilterne : session.prospect_data.selected_units.filter
        (unit_id_available units) ≠ [] := by
      rw [← hfact1, hAV]
      simp
    constructor
    · intro _
      refine ⟨?_, ?_, ?_, ?_⟩
      · split
        all_goals rfl
      · split
        all_goals
          dsimp only
          rw [hfact2, hfact3]
      · have hbooked : (((u0 :: rest).enum.map fun p =>
            BookedUnit.mk p.2.unit_id p.2.beds p.2.baths p.2.sqft p.2.rent
              (gen_conf p.1)).map fun b => b.unit_id) =
            (u0 :: rest).map fun u => u.unit_id := by
          rw [List.map_map]
          exact enumFrom_map_snd_fn (fun x => x.unit_id) 0 (u0 :: rest)
        split
        all_goals
          dsimp only
          rw [hbooked, ← hAV, hfact1]
      · intro uid hmem
        have hav : unit_id_available units uid = true :=
          List.of_mem_filter hmem
        obtain ⟨u, hget, _⟩ : ∃ u, get_unit_by_id units uid = some u ∧
            u.available = true := by
          unfold unit_id_available at hav
          cases hg : get_unit_by_id units uid with
          | none => rw [hg] at hav; cases hav
          | some u => rw [hg] at hav; exact ⟨u, rfl, hav⟩
        have hmem' : uid ∈ (u0 :: rest).map fun x => x.unit_id := by
          rw [← hAV, hfact1]
          exact List.mem_filter.mpr ⟨List.mem_of_mem_filter hmem, hav⟩
        have hres := foldl_reserve_mem (u0 :: rest) units uid u hget hmem'
        split
        all_goals exact hres
    · intro heq
      exact absurd heq hfilterne


/-- A session with three selected units of which C602 is pre-reserved in the
mock inventory. -/
def threeSelectionSession : ConversationSession :=
  { session_id := "sess-c6",
    state := ChatState.ready_to_book,
    prospect_data :=
      { name := some "Jane Doe", email := some "jane.doe@example.com",
        phone := some "(555) 123-4567", move_in_date := some "ASAP",
        beds_wanted := some 2, unit_id := none,
        selected_units := ["A101", "C602", "B301"] },
    messages := [], created_at := sampleDT, updated_at := sampleDT }

/-- Witness for C6 at a concrete input: of three selected units one (C602)
has vanished, and the handler books exactly the other two. -/
theorem multiple_booking_drops_unavailable_witness :
    (handle_multiple_booking_intent threeSelectionSession mock_inventory true
        "Friday, October 17" "2:00 PM" (fun _ => "CONF-1") "123 Main St"
        "(555) 123-4567").booked_units.map (fun b => b.unit_id) =
      ["A101", "B301"] :=
  (((multiple_booking_drops_unavailable threeSelectionSession mock_inventory
      true "Friday, October 17" "2:00 PM" (fun _ => "CONF-1") "123 Main St"
      "(555) 123-4567" (by decide) (by decide)).1 (by decide)).2.2.1).trans
    (by decide)

/-! ## Remaining `ProspectData` validators (re-run on load by
`ProspectData.parse_raw`) -/

/-- Gregorian leap year, as `datetime` uses it. -/
def isLeap (y : Nat) : Bool :=
  (y % 4 = 0 && y % 100 ≠ 0) || y % 400 = 0

/-- Days in a month, as `datetime` validates them. -/
def daysInMonth (y m : Nat) : Nat :=
  if m = 2 then (if isLeap y then 29 else 28)
  else if m = 4 || m = 6 || m = 9 || m = 11 then 30
  else 31

/-- Value of a decimal digit character. -/
def digv (c : Char) : Nat :=
  c.toNat - 48

/-- Embeds the `validate_move_in_date` field validator of
`models.ProspectData`: a string in strict `YYYY-MM-DD` shape must be a real
calendar date (`datetime.strptime` succeeds, embedded as the range checks of
the `datetime` constructor); anything else — natural language — is accepted
verbatim.  `none` embeds the raised `ValueError`. -/
def validate_move_in_date (v : Option String) : Option (Option String) :=
  match v with
  | none => some none
  | some s =>
    match s.data with
    | [y1, y2, y3, y4, '-', m1, m2, '-', d1, d2] =>
      if [y1, y2, y3, y4, m1, m2, d1, d2].all isPyDigit then
        let y := 1000 * digv y1 + 100 * digv y2 + 10 * digv y3 + digv y4
        let mo := 10 * digv m1 + digv m2
        let da := 10 * digv d1 + digv d2
        if 1 ≤ y && 1 ≤ mo && mo ≤ 12 && 1 ≤ da && da ≤ daysInMonth y mo then
          some (some s)
        else none
      else some (some s)
    | _ => some (some s)

/-- Embeds the `validate_beds` field validator: 0 to 5 bedrooms (negative
values are unrepresentable in the `Nat` model). -/
def validate_beds (v : Option Nat) : Option (Option Nat) :=
  match v with
  | none => some none
  | some b => if b ≤ 5 then some (some b) else none

/-- The `EmailStr` revalidation that `parse_raw` performs, modelled by the
same address pattern the repository itself uses (`_looks_like_email`);
pydantic's actual validator is an external library. -/
def email_str_ok : Option String → Bool
  | none => true
  | some e => looks_like_email e

/-- `ProspectData.parse_raw` of a serialized record: pydantic re-runs every
field validator; the JSON encode/decode transport itself is the identity. -/
def load_prospect_data (d : ProspectData) : Option ProspectData :=
  match validate_phone d.phone, validate_move_in_date d.move_in_date,
      validate_beds d.beds_wanted with
  | some ph, some mid, some bd =>
    if email_str_ok d.email then
      some { d with phone := ph, move_in_date := mid, beds_wanted := bd }
    else none
  | _, _, _ => none

/-! ## `datetime.isoformat` / `datetime.fromisoformat` -/

/-- Decimal digit character of a value below 10. -/
def digc : Nat → Char
  | 0 => '0'
  | 1 => '1'
  | 2 => '2'
  | 3 => '3'
  | 4 => '4'
  | 5 => '5'
  | 6 => '6'
  | 7 => '7'
  | 8 => '8'
  | 9 => '9'
  | _ => '0'

/-- Two-digit zero padding of a value below 100. -/
def pad2 (n : Nat) : List Char :=
  [digc (n / 10), digc (n % 10)]

/-- Four-digit zero padding of a value below 10000. -/
def pad4 (n : Nat) : List Char :=
  [digc (n / 1000), digc (n / 100 % 10), digc (n / 10 % 10), digc (n % 10)]

/-- Six-digit zero padding of a value below 1000000. -/
def pad6 (n : Nat) : List Char :=
  [digc (n / 100000), digc (n / 10000 % 10), digc (n / 1000 % 10),
   digc (n / 100 % 10), digc (n / 10 % 10), digc (n % 10)]

/-- `datetime.isoformat()`: `YYYY-MM-DDTHH:MM:SS`, with a `.ffffff` fraction
exactly when the microsecond field is non-zero. -/
def DateTime.isoformat (t : DateTime) : String :=
  String.mk (pad4 t.year ++ '-' :: pad2 t.month ++ '-' :: pad2 t.day ++
    'T' :: pad2 t.hour ++ ':' :: pad2 t.minute ++ ':' :: pad2 t.second ++
    (if t.microsecond = 0 then [] else '.' :: pad6 t.microsecond))

/-- The field ranges the `datetime` constructor enforces. -/
def DateTime.valid (t : DateTime) : Bool :=
  1 ≤ t.year && t.year ≤ 9999 && 1 ≤ t.month && t.month ≤ 12 &&
    1 ≤ t.day && t.day ≤ daysInMonth t.year t.month && t.hour ≤ 23 &&
    t.minute ≤ 59 && t.second ≤ 59 && t.microsecond ≤ 999999

/-- `datetime.fromisoformat` on the strings `isoformat` emits: fixed-width
fields, an optional six-digit fraction, and the constructor range checks;
`none` embeds the raised `ValueError`. -/
def DateTime.fromisoformat (s : String) : Option DateTime :=
  match s.data with
  | y1 :: y2 :: y3 :: y4 :: '-' :: m1 :: m2 :: '-' :: d1 :: d2 :: 'T' ::
      h1 :: h2 :: ':' :: n1 :: n2 :: ':' :: s1 :: s2 :: rest =>
    if [y1, y2, y3, y4, m1, m2, d1, d2, h1, h2, n1, n2, s1, s2].all isPyDigit
    then
      let y := 1000 * digv y1 + 100 * digv y2 + 10 * digv y3 + digv y4
      let mo := 10 * digv m1 + digv m2
      let da := 10 * digv d1 + digv d2
      let ho := 10 * digv h1 + digv h2
      let mi := 10 * digv n1 + digv n2
      let se := 10 * digv s1 + digv s2
      match rest with
      | [] =>
        let t : DateTime := ⟨y, mo, da, ho, mi, se, 0⟩
        if t.valid then some t else none
      | ['.', u1, u2, u3, u4, u5, u6] =>
        if [u1, u2, u3, u4, u5, u6].all isPyDigit then
          let t : DateTime := ⟨y, mo, da, ho, mi, se,
            100000 * digv u1 + 10000 * digv u2 + 1000 * digv u3 +
              100 * digv u4 + 10 * digv u5 + digv u6⟩
          if t.valid then some t else none
        else none
      | _ => none
    else none
  | _ => none

/-! ## `session_db_service`: save and load -/

/-- A row of the `conversations` table.  The two JSON text columns are
modelled structurally: `prospect_data` holds the serialized record (the
JSON transport is the identity; the validators re-run on load), `messages`
holds the `(sender, text, isoformat-timestamp)` triples that
`save_session` serializes. -/
structure ConversationDB where
  id : String
  state : String
  prospect_data : ProspectData
  messages : List (String × String × String)
  created_at : DateTime
  updated_at : DateTime
  deriving DecidableEq, Repr

/-- The message serialization of `save_session`. -/
def serialize_messages (msgs : List ConversationMessage) :
    List (String × String × String) :=
  msgs.map fun m => (m.sender, m.text, m.timestamp.isoformat)

/-- Embeds `SessionDatabaseService.save_session`: update the first row with
the session id (leaving its `created_at`), else append a new row. -/
def save_session : List ConversationDB → ConversationSession → List ConversationDB
  | [], s =>
    [⟨s.session_id, s.state.value, s.prospect_data,
      serialize_messages s.messages, s.created_at, s.updated_at⟩]
  | row :: rest, s =>
    if row.id = s.session_id then
      { row with
          state := s.state.value,
          prospect_data := s.prospect_data,
          messages := serialize_messages s.messages,
          updated_at := s.updated_at } :: rest
    else row :: save_session rest s

/-- The `query(...).filter(id == session_id).first()` lookup. -/
def find_row (db : List ConversationDB) (session_id : String)
    : Option ConversationDB :=
  db.find? fun row => row.id = session_id

/-- The message deserialization loop of `load_session`; any timestamp that
`fromisoformat` rejects makes the whole load fail. -/
def load_messages : List (String × String × String) →
    Option (List ConversationMessage)
  | [] => some []
  | (sender, text, ts) :: rest =>
    match DateTime.fromisoformat ts, load_messages rest with
    | some t, some ms => some (⟨sender, text, t⟩ :: ms)
    | _, _ => none

/-- Embeds `SessionDatabaseService.load_session`: find the row, re-validate
the prospect data, rebuild the state enum and the messages.  The
`ConversationSession` is constructed without `ai_context`, so that field
takes its default. -/
def load_session (db : List ConversationDB) (session_id : String)
    : Option ConversationSession :=
  match find_row db session_id with
  | none => none
  | some row =>
    match load_prospect_data row.prospect_data, ChatState.ofValue row.state,
        load_messages row.messages with
    | some pd, some st, some msgs =>
      some ⟨row.id, st, pd, msgs, {}, row.created_at, row.updated_at⟩
    | _, _, _ => none


lemma digv_digc (n : Nat) (h : n < 10) : digv (digc n) = n := by
  interval_cases n <;> rfl

lemma isDigit_digc (n : Nat) (h : n < 10) : isPyDigit (digc n) = true := by
  interval_cases n <;> rfl

lemma ofValue_value (st : ChatState) : ChatState.ofValue st.value = some st := by
  cases st <;> rfl

theorem fromisoformat_isoformat (t : DateTime) (h : t.valid = true) :
    DateTime.fromisoformat t.isoformat = some t := by
  obtain ⟨y, mo, da, ho, mi, se, us⟩ := t
  simp only [DateTime.valid, Bool.and_eq_true, decide_eq_true_eq] at h
  obtain ⟨⟨⟨⟨⟨⟨⟨⟨⟨h1, h2⟩, h3⟩, h4⟩, h5⟩, h6⟩, h7⟩, h8⟩, h9⟩, h10⟩ := h
  have hdig : ∀ n < 10, isPyDigit (digc n) = true := isDigit_digc
  have hy : 1000 * digv (digc (y / 1000)) + 100 * digv (digc (y / 100 % 10)) +
      10 * digv (digc (y / 10 % 10)) + digv (digc (y % 10)) = y := by
    rw [digv_digc _ (by omega), digv_digc _ (by omega), digv_digc _ (by omega),
      digv_digc _ (by omega)]
    omega
  have hmo : 10 * digv (digc (mo / 10)) + digv (digc (mo % 10)) = mo := by
    rw [digv_digc _ (by omega), digv_digc _ (by omega)]
    omega
  have hda31 : da ≤ 31 := by
    have h31 : daysInMonth y mo ≤ 31 := by
      unfold daysInMonth
      split
      · split <;> omega
      · split <;> omega
    omega
  have hda : 10 * digv (digc (da / 10)) + digv (digc (da % 10)) = da := by
    rw [digv_digc _ (by omega), digv_digc _ (by omega)]
    omega
  have hho : 10 * digv (digc (ho / 10)) + digv (digc (ho % 10)) = ho := by
    rw [digv_digc _ (by omega), digv_digc _ (by omega)]
    omega
  have hmi : 10 * digv (digc (mi / 10)) + digv (digc (mi % 10)) = mi := by
    rw [digv_digc _ (by omega), digv_digc _ (by omega)]
    omega
  have hse : 10 * digv (digc (se / 10)) + digv (digc (se % 10)) = se := by
    rw [digv_digc _ (by omega), digv_digc _ (by omega)]
    omega
  have hvalid : DateTime.valid ⟨y, mo, da, ho, mi, se, us⟩ = true := by
    simp only [DateTime.valid, Bool.and_eq_true, decide_eq_true_eq]
    refine ⟨⟨⟨⟨⟨⟨⟨⟨⟨h1, h2⟩, h3⟩, h4⟩, h5⟩, h6⟩, h7⟩, h8⟩, h9⟩, h10⟩
  by_cases hus : us = 0
  · subst hus
    show DateTime.fromisoformat
      (String.mk (pad4 y ++ '-' :: pad2 mo ++ '-' :: pad2 da ++
        'T' :: pad2 ho ++ ':' :: pad2 mi ++ ':' :: pad2 se ++
        (if (0 : Nat) = 0 then [] else '.' :: pad6 0))) = _
    rw [if_pos rfl]
    simp only [pad4, pad2, List.cons_append, List.nil_append,
      DateTime.fromisoformat]
    rw [if_pos]
    · simp only [hy, hmo, hda, hho, hmi, hse]
      rw [if_pos hvalid]
    · simp only [List.all_cons, List.all_nil, Bool.and_eq_true]
      repeat' apply And.intro
      all_goals first | trivial | (apply hdig; omega)
  · have hus6 : 100000 * digv (digc (us / 100000)) +
        10000 * digv (digc (us / 10000 % 10)) +
        1000 * digv (digc (us / 1000 % 10)) +
        100 * digv (digc (us / 100 % 10)) + 10 * digv (digc (us / 10 % 10)) +
        digv (digc (us % 10)) = us := by
      rw [digv_digc _ (by omega), digv_digc _ (by omega),
        digv_digc _ (by omega), digv_digc _ (by omega),
        digv_digc _ (by omega), digv_digc _ (by omega)]
      omega
    show DateTime.fromisoformat
      (String.mk (pad4 y ++ '-' :: pad2 mo ++ '-' :: pad2 da ++
        'T' :: pad2 ho ++ ':' :: pad2 mi ++ ':' :: pad2 se ++
        (if us = 0 then [] else '.' :: pad6 us))) = _
    rw [if_neg hus]
    simp only [pad4, pad2, pad6, List.cons_append, List.nil_append,
      DateTime.fromisoformat]
    rw [if_pos]
    · rw [if_pos]
      · simp only [hy, hmo, hda, hho, hmi, hse, hus6]
        rw [if_pos hvalid]
      · simp only [List.all_cons, List.all_nil, Bool.and_eq_true]
        repeat' apply And.intro
        all_goals first | trivial | (apply hdig; omega)
    · simp only [List.all_cons, List.all_nil, Bool.and_eq_true]
      repeat' apply And.intro
      all_goals first | trivial | (apply hdig; omega)



lemma load_messages_serialize :
    ∀ msgs : List ConversationMessage,
      (∀ m ∈ msgs, m.timestamp.valid = true) →
      load_messages (serialize_messages msgs) = some msgs
  | [] => fun _ => rfl
  | m :: rest => fun h => by
    have hm := h m (List.mem_cons_self m rest)
    have hrest := load_messages_serialize rest
      fun x hx => h x (List.mem_cons_of_mem m hx)
    simp only [serialize_messages, List.map_cons] at hrest ⊢
    simp only [load_messages, fromisoformat_isoformat m.timestamp hm, hrest]

lemma load_prospect_stable (d : ProspectData)
    (hph : validate_phone d.phone = some d.phone)
    (hmi : validate_move_in_date d.move_in_date = some d.move_in_date)
    (hbd : validate_beds d.beds_wanted = some d.beds_wanted)
    (hem : email_str_ok d.email = true) :
    load_prospect_data d = some d := by
  simp only [load_prospect_data, hph, hmi, hbd, hem, if_true]

lemma find_row_save :
    ∀ (db : List ConversationDB) (s : ConversationSession),
      ∃ r, find_row (save_session db s) s.session_id = some r ∧
        r.id = s.session_id ∧ r.state = s.state.value ∧
        r.prospect_data = s.prospect_data ∧
        r.messages = serialize_messages s.messages
  | [], s => by
    refine ⟨⟨s.session_id, s.state.value, s.prospect_data,
      serialize_messages s.messages, s.created_at, s.updated_at⟩, ?_,
      rfl, rfl, rfl, rfl⟩
    simp [save_session, find_row]
  | row :: rest, s => by
    by_cases hid : row.id = s.session_id
    · refine ⟨⟨row.id, s.state.value, s.prospect_data,
        serialize_messages s.messages, row.created_at, s.updated_at⟩,
        ?_, hid, rfl, rfl, rfl⟩
      simp only [save_session, if_pos hid, find_row]
      rw [List.find?_cons_of_pos _ (by simpa using hid)]
    · obtain ⟨r, hr, hrid, hrs, hrp, hrm⟩ := find_row_save rest s
      refine ⟨r, ?_, hrid, hrs, hrp, hrm⟩
      simp only [save_session, if_neg hid, find_row]
      rw [List.find?_cons_of_neg _ (by simpa using hid)]
      exact hr

/-- C9 (amended): saving then loading reproduces the prospect data, the
ordered messages and the state, for every session whose prospect fields are
stable under the re-validation that `load_session` performs and whose
message timestamps are valid datetimes. -/
theorem session_roundtrip (db : List ConversationDB) (s : ConversationSession)
    (hph : validate_phone s.prospect_data.phone = some s.prospect_data.phone)
    (hmi : validate_move_in_date s.prospect_data.move_in_date =
      some s.prospect_data.move_in_date)
    (hbd : validate_beds s.prospect_data.beds_wanted =
      some s.prospect_data.beds_wanted)
    (hem : email_str_ok s.prospect_data.email = true)
    (hts : ∀ m ∈ s.messages, m.timestamp.valid = true) :
    ∃ s', load_session (save_session db s) s.session_id = some s' ∧
      s'.prospect_data = s.prospect_data ∧ s'.messages = s.messages ∧
      s'.state = s.state := by
  obtain ⟨r, hr, hrid, hrs, hrp, hrm⟩ := find_row_save db s
  refine ⟨⟨r.id, s.state, s.prospect_data, s.messages, {}, r.created_at,
    r.updated_at⟩, ?_, rfl, rfl, rfl⟩
  simp only [load_session, hr, hrp, hrs, hrm,
    load_prospect_stable s.prospect_data hph hmi hbd hem,
    ofValue_value s.state, load_messages_serialize s.messages hts]



/-- Witness for C9 at a concrete input: a session with a normalized phone, a
natural-language move-in date and a valid email round-trips exactly. -/
theorem session_roundtrip_witness :
    ∃ s', load_session (save_session [] noSelectionSession)
        noSelectionSession.session_id = some s' ∧
      s'.prospect_data = noSelectionSession.prospect_data ∧
      s'.messages = noSelectionSession.messages ∧
      s'.state = noSelectionSession.state :=
  session_roundtrip [] noSelectionSession (by decide) (by decide) (by decide)
    (by decide) (by decide)

/-- A reachable session whose phone is stored as the raw ten digits the
multi-field extraction pass writes (`chat_service.py` line 807). -/
def rawPhoneSession : ConversationSession :=
  { session_id := "sess-c9", state := ChatState.ready_to_book,
    prospect_data :=
      { name := some "Kausha", email := some "patermanav45@gmail.com",
        phone := some "7272727272", move_in_date := some "Next month",
        beds_wanted := some 2 },
    messages := [], created_at := sampleDT, updated_at := sampleDT }

/-- C9 counterexample: saving a session whose phone is the raw
`"7272727272"` and loading it back yields phone `"(727) 272-7272"` — the
validators re-run by `ProspectData.parse_raw` normalize the field, so the
loaded `prospect_data` is NOT equal to the saved one. -/
theorem session_roundtrip_phone_cex :
    rawPhoneSession.prospect_data.phone = some "7272727272" ∧
    ((load_session (save_session [] rawPhoneSession) "sess-c9").map
        fun s' => s'.prospect_data.phone) = some (some "(727) 272-7272") := by
  decide

/-- C10: `ai_context` is not persisted — whatever a session's `ai_context`
holds at save time, a successful load by its id returns the
default-constructed `AIContext`. -/
theorem ai_context_not_persisted (db : List ConversationDB)
    (s s' : ConversationSession)
    (h : load_session (save_session db s) s.session_id = some s') :
    s'.ai_context = AIContext.mk "" [] "" "greeting" [] := by
  unfold load_session at h
  repeat' split at h
  any_goals exact Option.noConfusion h
  cases Option.some.inj h
  rfl

/-- Witness for C10 at a concrete input. -/
theorem ai_context_not_persisted_witness :
    noSelectionSession.ai_context = AIContext.mk "" [] "" "greeting" [] :=
  ai_context_not_persisted [] noSelectionSession noSelectionSession
    (by decide)


end LeadToLease
